import Mathlib

/-!
# EmojiWorld — verification of the simulation engine against its specification

Shallow embedding of the EmojiWorld simulation core (TypeScript sources under
`src/`) in Lean 4.  Numeric citizen fields are rational numbers (the source
uses IEEE doubles, but every constant in play — 0.1, 0.05, 0.08, 0.03,
0.015, 0.5, 0.15 — and every arithmetic operation involved is exact in
binary64 ranges used here only additively and by halving, so ℚ is faithful
for the quantities the claims mention; where a claim would hinge on binary
rounding we say so in its comment).  `Math.random()` is modelled as an
explicit stream of rationals consumed in the source's evaluation order
(including short-circuit evaluation).  Euclidean distance comparisons
`Grid.distance p q ≤ r` and `<` between distances are embedded via squared
distances (`Math.sqrt` is strictly monotone on nonnegative reals, so the
comparisons are equivalent and stay in exact integer arithmetic).

Object references (`breedingPartner`, crime `perpetrator`) are embedded as
citizen ids; the running program keeps ids unique, and reference equality
on live citizen objects coincides with id equality.
-/

namespace EmojiWorld

/- The Batteries `Rat` arithmetic (`Rat.add`, `Rat.sub`, `Rat.mul`,
`Rat.inv`) is marked `@[irreducible]`, which blocks `decide` from
evaluating concrete simulation runs; restoring the default
reducibility inside this file is purely a transparency matter — every
proof still goes through the kernel. -/
set_option allowUnsafeReducibility true
attribute [local semireducible] Rat.add Rat.sub Rat.mul Rat.inv

/-- `Math.random()` stream: each entry stands for one call, a rational in
`[0,1)` in the real program; definitions are total for arbitrary values. -/
abbrev Rng := List ℚ

/-- Pop one `Math.random()` value (0 if the modelled stream is exhausted;
concrete runs always supply enough entries). -/
def Rng.next (r : Rng) : ℚ × Rng :=
  match r with
  | [] => (0, [])
  | x :: xs => (x, xs)

/-! ## Grid (src/src/world/Grid.ts, also unnamed/part_010) -/

/-- `Position` interface: integer x/y coordinates. -/
structure Position where
  x : Int
  y : Int
deriving DecidableEq, Repr

/-- `Grid`: immutable width/height (the entity-cell map is unused by the
simulation paths the claims mention). -/
structure Grid where
  width : Int
  height : Int
deriving DecidableEq, Repr

/-- `Grid.isValidPosition`. -/
def Grid.isValidPosition (g : Grid) (pos : Position) : Bool :=
  pos.x ≥ 0 && pos.x < g.width && pos.y ≥ 0 && pos.y < g.height

/-- Square of `Grid.distance` (which is `Math.sqrt(dx*dx + dy*dy)`).
All uses of `Grid.distance` in the sources are comparisons against
constants or against other distances, so the square is a faithful
embedding via monotonicity of `Math.sqrt`. -/
def distSq (pos1 pos2 : Position) : Int :=
  (pos1.x - pos2.x) * (pos1.x - pos2.x) + (pos1.y - pos2.y) * (pos1.y - pos2.y)

/-! ## Resource (src/src/entities/Resource.ts, unnamed/part_007) -/

/-- `Resource`: position, single-character type, collected flag. -/
structure Resource where
  position : Position
  rtype : Char
  collected : Bool
deriving DecidableEq, Repr

/-- `Resource.collect`. -/
def Resource.collect (r : Resource) : Resource :=
  { r with collected := true }

/-- `Resource.respawn`. -/
def Resource.respawn (r : Resource) (newPosition : Position) : Resource :=
  { r with position := newPosition, collected := false }

/-! ## Landmark (src/src/entities/Landmark.ts) -/

/-- `LandmarkType` union. -/
inductive LandmarkType
  | home | market | park | boundary | storage | meeting | farm | wall
  | horizontal_road | vertical_road | intersection
  | town_hall | courthouse | treasury | police_station | public_works
deriving DecidableEq, Repr

/-- `Landmark` class fields (`occupants` as a list of citizen ids). -/
structure Landmark where
  position : Position
  ltype : LandmarkType
  character : String
  capacity : Nat
  occupants : List String
deriving DecidableEq, Repr

/-- `Landmark` constructor: capacity 0 for boundary, 5 otherwise. -/
def Landmark.make (position : Position) (ltype : LandmarkType) (character : String) : Landmark :=
  { position := position, ltype := ltype, character := character
    capacity := if ltype = .boundary then 0 else 5
    occupants := [] }

/-- `Landmark.isRoad`. -/
def Landmark.isRoad (l : Landmark) : Bool :=
  l.ltype = .horizontal_road || l.ltype = .vertical_road || l.ltype = .intersection

/-- `Landmark.isGovernmentBuilding`. -/
def Landmark.isGovernmentBuilding (l : Landmark) : Bool :=
  l.ltype = .town_hall || l.ltype = .courthouse || l.ltype = .treasury ||
  l.ltype = .police_station || l.ltype = .public_works

/-- `Landmark.isWalkable`. -/
def Landmark.isWalkable (l : Landmark) : Bool :=
  l.ltype ≠ .boundary

/-! ## Citizen data model (src/src/entities/Citizen.ts) -/

/-- `CitizenState` union, extended by the states that `PoliceSystem` /
`RoutineSystem` assign (`working`, `commuting`, `fleeing`, `detained`,
`sleeping`, `resting`). -/
inductive CitizenState
  | wandering | seeking_resource | seeking_shelter | resting | socializing
  | building | seeking_mate | working | commuting | fleeing | detained | sleeping
deriving DecidableEq, Repr

/-- `CitizenCategory` union. -/
inductive CitizenCategory
  | people | animals | food
deriving DecidableEq, Repr

/-- `BuildingType` union. -/
inductive BuildingType
  | HOME | STORAGE | MEETING | FARM | WALL
  | HORIZONTAL_ROAD | VERTICAL_ROAD | INTERSECTION
  | TOWN_HALL | COURTHOUSE | TREASURY | POLICE_STATION | PUBLIC_WORKS
deriving DecidableEq, Repr

/-- `BuildingType.toLowerCase()` as used by `World.tick` when placing the
completed landmark. -/
def BuildingType.toLandmarkType : BuildingType → LandmarkType
  | .HOME => .home
  | .STORAGE => .storage
  | .MEETING => .meeting
  | .FARM => .farm
  | .WALL => .wall
  | .HORIZONTAL_ROAD => .horizontal_road
  | .VERTICAL_ROAD => .vertical_road
  | .INTERSECTION => .intersection
  | .TOWN_HALL => .town_hall
  | .COURTHOUSE => .courthouse
  | .TREASURY => .treasury
  | .POLICE_STATION => .police_station
  | .PUBLIC_WORKS => .public_works

/-- `BuildingRecipe` interface. -/
structure BuildingRecipe where
  symbol : String
  resources : List Char
  buildTime : Nat
deriving DecidableEq, Repr

/-- `BUILDING_RECIPES` table. -/
def BUILDING_RECIPES : BuildingType → BuildingRecipe
  | .HOME => { symbol := "⌂", resources := ['H', 'O', 'M', 'E'], buildTime := 10 }
  | .STORAGE => { symbol := "□", resources := ['S', 'T', 'O', 'R'], buildTime := 8 }
  | .MEETING => { symbol := "◊", resources := ['M', 'E', 'E', 'T'], buildTime := 6 }
  | .FARM => { symbol := "⚘", resources := ['F', 'A', 'R', 'M'], buildTime := 12 }
  | .WALL => { symbol := "█", resources := ['W', 'A', 'L'], buildTime := 5 }
  | .HORIZONTAL_ROAD => { symbol := "=", resources := ['R', 'O', 'A', 'D'], buildTime := 3 }
  | .VERTICAL_ROAD => { symbol := "║", resources := ['R', 'O', 'A', 'D'], buildTime := 3 }
  | .INTERSECTION => { symbol := "╬", resources := ['R', 'O', 'A', 'D', 'X'], buildTime := 4 }
  | .TOWN_HALL => { symbol := "🏛", resources := ['G', 'O', 'V', 'T', 'H', 'A', 'L', 'L'], buildTime := 20 }
  | .COURTHOUSE => { symbol := "⚖", resources := ['C', 'O', 'U', 'R', 'T'], buildTime := 15 }
  | .TREASURY => { symbol := "💰", resources := ['T', 'R', 'E', 'A', 'S', 'U', 'R', 'Y'], buildTime := 12 }
  | .POLICE_STATION => { symbol := "🚓", resources := ['P', 'O', 'L', 'I', 'C', 'E'], buildTime := 10 }
  | .PUBLIC_WORKS => { symbol := "⚙", resources := ['W', 'O', 'R', 'K', 'S'], buildTime := 8 }

/-- `BREEDING_REQUIREMENTS` constants. -/
def BREEDING_minEnergy : ℚ := 60
def BREEDING_minAge : Nat := 100
def BREEDING_breedingCooldown : Int := 200
def BREEDING_proximityRange : Int := 2
def BREEDING_maxPopulation : Nat := 100

/-- `Role` enum (src/src/entities/Government.ts, unnamed/part_008). -/
inductive Role
  | leader | official | citizen | rebel | independent
deriving DecidableEq, Repr

/-- `GovernmentType` enum. -/
inductive GovernmentType
  | democracy | monarchy | council | anarchy
deriving DecidableEq, Repr

/-- `Job`: only the `type` field matters to the claims (the police system
checks `job.type === 'POLICE_OFFICER'`). -/
structure Job where
  jtype : String
deriving DecidableEq, Repr

/-- `CitizenNeeds` interface. -/
structure CitizenNeeds where
  hunger : ℚ
  energy : ℚ
  social : ℚ
deriving DecidableEq, Repr

/-- `Citizen` class fields.  `breedingPartner` holds the partner's id
(the source holds an object reference; ids are unique in the running
program).  The fields after `lastTaxTime` (`socialCredit`, `isCriminal`,
`isDetained`, `detentionEndTime`, `job`) are referenced by `World.ts`,
`PoliceSystem.ts` and `RoutineSystem.ts` but their declarations are not
part of the `Citizen.ts` under `src/`; they are included here as the spec
describes them (social credit ∈ [0,1000] starting at 500, criminal < 200,
detention flag + release tick, optional job). -/
structure Citizen where
  id : String
  emoji : String
  position : Position
  category : CitizenCategory
  state : CitizenState
  needs : CitizenNeeds
  inventory : List Char
  target : Option Position
  movementSpeed : ℚ
  visionRange : ℚ
  isBuilding : Bool
  buildingProgress : Nat
  buildingTarget : Option BuildingType
  age : Nat
  lastBreedTime : Int
  canBreed : Bool
  breedingPartner : Option String
  offspring : Nat
  energy : ℚ
  governmentId : Option String
  governmentRole : Role
  taxesPaid : Nat
  satisfaction : ℚ
  loyaltyToGov : ℚ
  lastTaxTime : Int
  moveCounter : ℚ
  socialCredit : ℚ
  isCriminal : Bool
  isDetained : Bool
  detentionEndTime : Int
  job : Option Job
deriving DecidableEq, Repr

/-- `Citizen` constructor (id, emoji, position, category, movementSpeed,
visionRange); the trailing fields use the spec's initial values
(`socialCredit` starts at 500, no job, not detained). -/
def Citizen.make (id : String) (emoji : String) (position : Position)
    (category : CitizenCategory) (movementSpeed : ℚ := 1) (visionRange : ℚ := 5) : Citizen :=
  { id := id, emoji := emoji, position := position, category := category
    state := .wandering
    needs := { hunger := 50, energy := 80, social := 50 }
    inventory := []
    target := none
    movementSpeed := movementSpeed
    visionRange := visionRange
    moveCounter := 0
    isBuilding := false
    buildingProgress := 0
    buildingTarget := none
    age := 0
    lastBreedTime := -1000
    canBreed := true
    breedingPartner := none
    offspring := 0
    energy := 80
    governmentId := none
    governmentRole := .independent
    taxesPaid := 0
    satisfaction := 70
    loyaltyToGov := 50
    lastTaxTime := -100
    socialCredit := 500
    isCriminal := false
    isDetained := false
    detentionEndTime := 0
    job := none }

/-! ## Citizen behavior (src/src/entities/Citizen.ts) -/

/-- Is there a landmark at `pos` making it (non-)walkable?  Mirrors
`Citizen.isWalkable`: the loop returns at the *first* landmark whose
position matches; positions with no landmark are walkable. -/
def walkableAt (landmarks : List Landmark) (pos : Position) : Bool :=
  match landmarks.find? (fun l => l.position.x = pos.x && l.position.y = pos.y) with
  | some l => l.isWalkable
  | none => true

/-- `Citizen.isOnRoad`: the first landmark at the citizen's position
decides (`return landmark.isRoad()` inside the loop). -/
def Citizen.isOnRoad (c : Citizen) (landmarks : List Landmark) : Bool :=
  match landmarks.find? (fun l => l.position.x = c.position.x && l.position.y = c.position.y) with
  | some l => l.isRoad
  | none => false

/-- `Citizen.setRandomTarget` with a null grid: returns immediately. -/
def Citizen.setRandomTargetNull (c : Citizen) : Citizen := c

/-- The attempt loop of `Citizen.setRandomTarget` (≤ 10 attempts, two
`Math.random()` calls per attempt; an attempt with `isValidPosition`
succeeding sets the target and returns). -/
def setRandomTargetLoop (grid : Grid) : Nat → Citizen → Rng → Citizen × Rng
  | 0, c, rng => (c, rng)
  | n + 1, c, rng =>
    let (rx, rng) := rng.next
    let (ry, rng) := rng.next
    let x : Int := ⌊rx * (grid.width : ℚ)⌋
    let y : Int := ⌊ry * (grid.height : ℚ)⌋
    if grid.isValidPosition ⟨x, y⟩ then
      ({ c with target := some ⟨x, y⟩ }, rng)
    else
      setRandomTargetLoop grid n c rng

/-- `Citizen.setRandomTarget(grid)` with a non-null grid. -/
def Citizen.setRandomTarget (c : Citizen) (grid : Grid) (rng : Rng) : Citizen × Rng :=
  setRandomTargetLoop grid 10 c rng

/-- `Citizen.findNearestResource`: nearest uncollected resource by the
source's scan (initial candidate `available[0]`, strict `<` improves). -/
def Citizen.findNearestResource (c : Citizen) (resources : List Resource) : Citizen :=
  let available := resources.filter (fun r => !r.collected)
  match available with
  | [] => c.setRandomTargetNull
  | first :: _ =>
    let best := available.foldl
      (fun (acc : Resource × Int) r =>
        let d := distSq c.position r.position
        if d < acc.2 then (r, d) else acc)
      (first, distSq c.position first.position)
    { c with target := some best.1.position }

/-- `Citizen.findNearestLandmark` for a landmark type. -/
def Citizen.findNearestLandmark (c : Citizen) (landmarks : List Landmark)
    (ltype : LandmarkType) : Citizen :=
  let matching := landmarks.filter (fun l => l.ltype = ltype)
  match matching with
  | [] => c.setRandomTargetNull
  | first :: _ =>
    let best := matching.foldl
      (fun (acc : Landmark × Int) l =>
        let d := distSq c.position l.position
        if d < acc.2 then (l, d) else acc)
      (first, distSq c.position first.position)
    { c with target := some best.1.position }

/-- `Citizen.findNearestCitizen`: among the others, strict `<` with the
extra `dist > 0` condition; the initial candidate is `others[0]`. -/
def Citizen.findNearestCitizen (c : Citizen) (citizens : List Citizen) : Citizen :=
  let others := citizens.filter (fun o => o.id ≠ c.id)
  match others with
  | [] => c.setRandomTargetNull
  | first :: _ =>
    let best := others.foldl
      (fun (acc : Citizen × Int) o =>
        let d := distSq c.position o.position
        if d < acc.2 && d > 0 then (o, d) else acc)
      (first, distSq c.position first.position)
    { c with target := some best.1.position }

/-- `Citizen.getNeededResources`: recipe letters not covered by the
inventory, matching multiset-style (each inventory letter used once). -/
def getNeededResources (inventory : List Char) (required : List Char) : List Char :=
  (required.foldl
    (fun (acc : List Char × List Char) r =>
      if acc.2.contains r then (acc.1, acc.2.erase r) else (acc.1 ++ [r], acc.2))
    ([], inventory)).1

/-- `Citizen.hasResources`. -/
def Citizen.hasResources (c : Citizen) (required : List Char) : Bool :=
  getNeededResources c.inventory required = []

/-- `Citizen.consumeResources`: remove the first occurrence of each
required letter (`indexOf` + `splice`). -/
def consumeResources (inventory : List Char) (required : List Char) : List Char :=
  required.foldl (fun inv r => inv.erase r) inventory

/-- `Citizen.startBuilding`. -/
def Citizen.startBuilding (c : Citizen) : Citizen :=
  match c.buildingTarget with
  | none => c
  | some bt =>
    let recipe := BUILDING_RECIPES bt
    if c.hasResources recipe.resources then
      { c with isBuilding := true
               buildingProgress := 0
               inventory := consumeResources c.inventory recipe.resources
               state := .building
               target := none }
    else c

/-- `Citizen.updateBuilding` (the grid/landmark arguments of the source
are unused by its body). -/
def Citizen.updateBuilding (c : Citizen) : Citizen :=
  if !c.isBuilding then c else
  match c.buildingTarget with
  | none => c
  | some bt =>
    let progress := c.buildingProgress + 1
    let recipe := BUILDING_RECIPES bt
    if progress ≥ recipe.buildTime then
      { c with buildingProgress := 0
               isBuilding := false
               energy := min 100 (c.energy + 10) }
    else
      { c with buildingProgress := progress }

/-- `Citizen.shouldBuild`: consumes one `Math.random()` only when energy
≥ 40, not building, and home count < 15 (short-circuit `&&`). -/
def Citizen.shouldBuild (c : Citizen) (landmarks : List Landmark) (rng : Rng) : Bool × Rng :=
  if c.energy < 40 || c.isBuilding then (false, rng)
  else
    let homeCount := (landmarks.filter (fun l => l.ltype = .home)).length
    if homeCount < 15 then
      let (r, rng) := rng.next
      (r < 1/20, rng)
    else (false, rng)

/-- `Citizen.planBuilding`: no-op when a target already exists; otherwise
one random draw selects the family, a second (in the 70% and 5% branches)
indexes into it.  `Math.floor(rand*n)` indexing is in range for rand ∈
[0,1); out-of-range indices (impossible at runtime) default to the last
family member. -/
def Citizen.planBuilding (c : Citizen) (rng : Rng) : Citizen × Rng :=
  match c.buildingTarget with
  | some _ => (c, rng)
  | none =>
    let (rand, rng) := rng.next
    if rand < 7/10 then
      let buildingTypes : List BuildingType :=
        [.HOME, .STORAGE, .MEETING, .FARM, .WALL, .HORIZONTAL_ROAD, .VERTICAL_ROAD]
      let (ri, rng) := rng.next
      ({ c with buildingTarget := some (buildingTypes.getD (Int.toNat ⌊ri * 7⌋) .VERTICAL_ROAD) }, rng)
    else if rand < 19/20 then
      ({ c with buildingTarget := some .INTERSECTION }, rng)
    else
      let govBuildings : List BuildingType :=
        [.TOWN_HALL, .COURTHOUSE, .TREASURY, .POLICE_STATION, .PUBLIC_WORKS]
      let (ri, rng) := rng.next
      ({ c with buildingTarget := some (govBuildings.getD (Int.toNat ⌊ri * 5⌋) .PUBLIC_WORKS) }, rng)

/-- `Citizen.findResourcesForBuilding`. -/
def Citizen.findResourcesForBuilding (c : Citizen) (resources : List Resource) : Citizen :=
  match c.buildingTarget with
  | none => c
  | some bt =>
    let recipe := BUILDING_RECIPES bt
    let needed := getNeededResources c.inventory recipe.resources
    if needed = [] then
      c.startBuilding
    else
      let available := resources.filter (fun r => !r.collected && needed.contains r.rtype)
      match available with
      | [] => { c with buildingTarget := none }.setRandomTargetNull
      | first :: _ =>
        let best := available.foldl
          (fun (acc : Resource × Int) r =>
            let d := distSq c.position r.position
            if d < acc.2 then (r, d) else acc)
          (first, distSq c.position first.position)
        { c with target := some best.1.position }

/-- `Citizen.shouldBreed`: early `return false` checks, then a 10% random
gate (the draw happens only when all checks pass). -/
def Citizen.shouldBreed (c : Citizen) (tickCount : Int) (citizens : List Citizen)
    (rng : Rng) : Bool × Rng :=
  if !c.canBreed then (false, rng)
  else if c.age < BREEDING_minAge then (false, rng)
  else if c.energy < BREEDING_minEnergy then (false, rng)
  else if tickCount - c.lastBreedTime < BREEDING_breedingCooldown then (false, rng)
  else if citizens.length ≥ BREEDING_maxPopulation then (false, rng)
  else
    let (r, rng) := rng.next
    (r < 1/10, rng)

/-- `Citizen.canBreedWith`. -/
def Citizen.canBreedWith (c other : Citizen) (currentTick : Int) : Bool :=
  if !c.canBreed || !other.canBreed then false
  else if c.age < BREEDING_minAge || other.age < BREEDING_minAge then false
  else if c.energy < BREEDING_minEnergy || other.energy < BREEDING_minEnergy then false
  else if currentTick - c.lastBreedTime < BREEDING_breedingCooldown then false
  else if currentTick - other.lastBreedTime < BREEDING_breedingCooldown then false
  else true

/-- `Citizen.findNearestMate`: when no potential mate qualifies the
breeding partner reference is left as it was (only `setRandomTarget(null)`
runs, a no-op); otherwise both the partner reference and the target are
set to the nearest mate. -/
def Citizen.findNearestMate (c : Citizen) (citizens : List Citizen) (tickCount : Int) : Citizen :=
  let potentialMates := citizens.filter (fun o => o.id ≠ c.id && c.canBreedWith o tickCount)
  match potentialMates with
  | [] => c.setRandomTargetNull
  | first :: _ =>
    let best := potentialMates.foldl
      (fun (acc : Citizen × Int) o =>
        let d := distSq c.position o.position
        if d < acc.2 then (o, d) else acc)
      (first, distSq c.position first.position)
    { c with breedingPartner := some best.1.id, target := some best.1.position }

/-- `Citizen.isNearby`: Euclidean distance ≤ proximityRange (2), embedded
as squared distance ≤ 4. -/
def Citizen.isNearbyTo (c other : Citizen) : Bool :=
  distSq c.position other.position ≤ BREEDING_proximityRange * BREEDING_proximityRange

/-- `Citizen.breed`: applied to both parents; note the stamina `energy`
is decremented by 20 *without* the `Math.max(0, ...)` clamp the other
numeric updates use. -/
def Citizen.breed (c partner : Citizen) (tickCount : Int) : Citizen × Citizen :=
  ({ c with lastBreedTime := tickCount
            offspring := c.offspring + 1
            energy := c.energy - 20
            needs := { c.needs with hunger := max 0 (c.needs.hunger - 30) }
            breedingPartner := none },
   { partner with lastBreedTime := tickCount
                  offspring := partner.offspring + 1
                  energy := partner.energy - 20
                  needs := { partner.needs with hunger := max 0 (partner.needs.hunger - 30) }
                  breedingPartner := none })

/-- `Citizen.onReachTarget`. -/
def Citizen.onReachTarget (c : Citizen) : Citizen :=
  let c := { c with target := none }
  if c.state = .seeking_shelter then
    { c with needs := { c.needs with energy := min 100 (c.needs.energy + 30) } }
  else if c.state = .seeking_resource then
    { c with needs := { c.needs with hunger := min 100 (c.needs.hunger + 20) } }
  else if c.state = .socializing then
    { c with needs := { c.needs with social := min 100 (c.needs.social + 15) } }
  else c

/-- `Citizen.move`: one random draw decides the diagonal only when both
axis deltas are nonzero (short-circuit); the step is applied only when
in-bounds and walkable; reaching the target triggers the reward. -/
def Citizen.move (c : Citizen) (grid : Grid) (landmarks : List Landmark)
    (rng : Rng) : Citizen × Rng :=
  match c.target with
  | none => (c, rng)
  | some target =>
    let dx := Int.sign (target.x - c.position.x)
    let dy := Int.sign (target.y - c.position.y)
    let (newPosition, rng) :=
      if dx ≠ 0 && dy ≠ 0 then
        let (r, rng) := rng.next
        if r > 1/2 then
          ((⟨c.position.x + dx, c.position.y + dy⟩ : Position), rng)
        else if (target.x - c.position.x).natAbs > (target.y - c.position.y).natAbs then
          ((⟨c.position.x + dx, c.position.y⟩ : Position), rng)
        else
          ((⟨c.position.x, c.position.y + dy⟩ : Position), rng)
      else if (target.x - c.position.x).natAbs > (target.y - c.position.y).natAbs then
        ((⟨c.position.x + dx, c.position.y⟩ : Position), rng)
      else
        ((⟨c.position.x, c.position.y + dy⟩ : Position), rng)
    let c :=
      if grid.isValidPosition newPosition && walkableAt landmarks newPosition then
        { c with position := newPosition }
      else c
    if c.position.x = target.x && c.position.y = target.y then
      (c.onReachTarget, rng)
    else (c, rng)

/-- `Citizen.decideAction`: the strict priority chain (shelter ≺ hunger ≺
breed ≺ build ≺ socialize ≺ wander); random draws happen in the source's
short-circuit order. -/
def Citizen.decideAction (c : Citizen) (grid : Grid) (citizens : List Citizen)
    (resources : List Resource) (landmarks : List Landmark) (tickCount : Int)
    (rng : Rng) : Citizen × Rng :=
  if c.needs.energy < 20 then
    (({ c with state := .seeking_shelter }).findNearestLandmark landmarks .home, rng)
  else if c.needs.hunger < 30 then
    (({ c with state := .seeking_resource }).findNearestResource resources, rng)
  else
    let (breedp, rng) := c.shouldBreed tickCount citizens rng
    if breedp then
      (({ c with state := .seeking_mate }).findNearestMate citizens tickCount, rng)
    else
      let (buildp, rng) := c.shouldBuild landmarks rng
      if buildp then
        let c := { c with state := .seeking_resource }
        let (c, rng) := c.planBuilding rng
        (c.findResourcesForBuilding resources, rng)
      else if c.needs.social < 30 then
        (({ c with state := .socializing }).findNearestCitizen citizens, rng)
      else
        let c := { c with state := .wandering }
        match c.target with
        | none => c.setRandomTarget grid rng
        | some _ =>
          let (r, rng) := rng.next
          if r < 1/20 then c.setRandomTarget grid rng else (c, rng)

/-- `Citizen.update`: age, road check, need/energy decay, then either the
building progress branch (no movement) or decide + throttled move. -/
def Citizen.update (c : Citizen) (grid : Grid) (citizens : List Citizen)
    (resources : List Resource) (landmarks : List Landmark) (tickCount : Int)
    (rng : Rng) : Citizen × Rng :=
  let c := { c with age := c.age + 1 }
  let onRoad := c.isOnRoad landmarks
  let energyDecay : ℚ := if onRoad then 3/200 else 3/100
  let c := { c with needs := { hunger := max 0 (c.needs.hunger - 1/10)
                               energy := max 0 (c.needs.energy - 1/20)
                               social := max 0 (c.needs.social - 2/25) } }
  let c := { c with energy := max 0 (c.energy - energyDecay) }
  if c.isBuilding then
    (c.updateBuilding, rng)
  else
    let (c, rng) := c.decideAction grid citizens resources landmarks tickCount rng
    let c := { c with moveCounter := c.moveCounter + 1 }
    let moveThreshold := if onRoad then max (1/2) (c.movementSpeed / 2) else c.movementSpeed
    if c.moveCounter ≥ moveThreshold then
      ({ c with moveCounter := 0 } : Citizen).move grid landmarks rng
    else (c, rng)

/-- `Citizen.collectResource`: appends the resource letter and marks the
resource collected only when the inventory holds fewer than 10 items. -/
def Citizen.collectResource (c : Citizen) (r : Resource) : Citizen × Resource :=
  if c.inventory.length < 10 then
    ({ c with inventory := c.inventory ++ [r.rtype] }, r.collect)
  else (c, r)

/-- `Citizen.joinGovernment`. -/
def Citizen.joinGovernment (c : Citizen) (governmentId : String)
    (role : Role := .citizen) : Citizen :=
  { c with governmentId := some governmentId
           governmentRole := role
           satisfaction := 70
           loyaltyToGov := 60 }

/-- `Citizen.leaveGovernment`. -/
def Citizen.leaveGovernment (c : Citizen) : Citizen :=
  { c with governmentId := none, governmentRole := .independent }

/-- The shift loop of `Citizen.payTax`: runs while `i < taxAmount` and the
inventory is nonempty, moving the oldest item into the collected list. -/
def payTaxLoop : Nat → List Char → List Char → List Char × List Char
  | 0, inv, acc => (acc, inv)
  | _ + 1, [], acc => (acc, [])
  | n + 1, x :: xs, acc => payTaxLoop n xs (acc ++ [x])

/-- `Citizen.payTax`: every 100 ticks, `Math.floor(length × taxRate)`
items are shifted off the front of the inventory (never past empty);
rates above 0.3 also cost satisfaction and loyalty. -/
def Citizen.payTax (c : Citizen) (taxRate : ℚ) (tickCount : Int) : List Char × Citizen :=
  if tickCount - c.lastTaxTime < 100 then ([], c)
  else
    let taxAmount : Int := ⌊(c.inventory.length : ℚ) * taxRate⌋
    let (taxableItems, inventory) := payTaxLoop taxAmount.toNat c.inventory []
    let c := { c with inventory := inventory
                      taxesPaid := c.taxesPaid + taxableItems.length
                      lastTaxTime := tickCount }
    if taxRate > 3/10 then
      (taxableItems, { c with satisfaction := max 0 (c.satisfaction - 2)
                              loyaltyToGov := max 0 (c.loyaltyToGov - 1) })
    else (taxableItems, c)

/-- `Citizen.receiveGovernmentService`. -/
def Citizen.receiveGovernmentService (c : Citizen) : Citizen :=
  { c with satisfaction := min 100 (c.satisfaction + 1)
           loyaltyToGov := min 100 (c.loyaltyToGov + 1/2) }

/-- `Citizen.updateGovernmentSatisfaction`: clamp satisfaction into
[0,100], then nudge loyalty by the satisfaction band. -/
def Citizen.updateGovernmentSatisfaction (c : Citizen) (delta : ℚ) : Citizen :=
  let c := { c with satisfaction := max 0 (min 100 (c.satisfaction + delta)) }
  if c.satisfaction < 30 then
    { c with loyaltyToGov := max 0 (c.loyaltyToGov - 1) }
  else if c.satisfaction > 70 then
    { c with loyaltyToGov := min 100 (c.loyaltyToGov + 1/2) }
  else c

/-- `Citizen.shouldRebel`: 1% random gate when affiliated, dissatisfied
and disloyal (the draw happens only when the other conditions hold,
matching `&&` short-circuit). -/
def Citizen.shouldRebel (c : Citizen) (rng : Rng) : Bool × Rng :=
  if c.governmentId ≠ none && c.satisfaction < 20 && c.loyaltyToGov < 20 then
    let (r, rng) := rng.next
    (r < 1/100, rng)
  else (false, rng)

/-! ### Citizen crime/detention methods — missing from src/

`World.ts`, `CrimeSystem` and `PoliceSystem` call `commitCrime`,
`updateSocialCredit`, `getArrested`, `releaseFromDetention`,
`isModelCitizen` and `isEmployed` on citizens, but the `Citizen.ts`
under `src/` does not define them.  They are modelled from the spec
(§3 data model, §4.4 crime & policing) and the repository's feature
documentation (social credit 0–1000, criminal < 200, model citizen
> 800, arrest −30 credit, release +10 credit). -/

/-- Modelled from the spec: `Citizen.isEmployed` — the citizen holds a
job. -/
def Citizen.isEmployed (c : Citizen) : Bool :=
  c.job ≠ none

/-- Modelled from the spec: `Citizen.isModelCitizen` — social credit
above 800. -/
def Citizen.isModelCitizen (c : Citizen) : Bool :=
  c.socialCredit > 800

/-- Modelled from the spec: `Citizen.updateSocialCredit` — social credit
stays within [0,1000]; criminal classification is credit < 200. -/
def Citizen.updateSocialCredit (c : Citizen) (delta : ℚ) : Citizen :=
  let credit := max 0 (min 1000 (c.socialCredit + delta))
  { c with socialCredit := credit, isCriminal := credit < 200 }

/-- Modelled from the spec: `Citizen.commitCrime` — the crime's fixed
social-credit penalty is applied (credit bounded in [0,1000]; criminal
below 200). -/
def Citizen.commitCrime (c : Citizen) (penalty : ℚ) : Citizen :=
  c.updateSocialCredit (-penalty)

/-- Modelled from the spec: `Citizen.getArrested` — detention flag set,
release tick stored as `tickCount + detentionTime`, an additional −30
credit penalty, state detained. -/
def Citizen.getArrested (c : Citizen) (detentionTime : Int) (tickCount : Int) : Citizen :=
  let c := c.updateSocialCredit (-30)
  { c with isDetained := true
           detentionEndTime := tickCount + detentionTime
           state := .detained }

/-- Modelled from the spec: `Citizen.releaseFromDetention` — detention
flag cleared, small credit restoration (+10), back to wandering. -/
def Citizen.releaseFromDetention (c : Citizen) : Citizen :=
  let c := c.updateSocialCredit 10
  { c with isDetained := false, state := .wandering }

/-! ## Government (src/src/entities/Government.ts, unnamed/part_008) -/

/-- JS `Set.add` on id lists: append if absent. -/
def addId (l : List String) (id : String) : List String :=
  if l.contains id then l else l ++ [id]

/-- `Government` class fields.  `leader` holds the leader's id (the
source holds a `Citizen` reference); `officials`/`citizens` are JS `Set`s
of ids, embedded as duplicate-free-by-construction lists; the treasury
`Map<string, number>` is an association list.  The `territory`,
`policies` and `laws` fields are never touched on the paths the claims
mention and are omitted. -/
structure Government where
  id : String
  name : String
  gtype : GovernmentType
  leader : Option String
  officials : List String
  citizens : List String
  treasury : List (Char × Nat)
  taxRate : ℚ
  governmentBuildings : List Landmark
  publicRoads : List Landmark
  founded : Int
  satisfaction : ℚ
  corruption : ℚ
deriving DecidableEq, Repr

/-- `Government` constructor. -/
def Government.make (id name : String) (gtype : GovernmentType) (founded : Int) : Government :=
  { id := id, name := name, gtype := gtype, leader := none
    officials := [], citizens := [], treasury := []
    taxRate := 3/20
    governmentBuildings := [], publicRoads := []
    founded := founded, satisfaction := 70, corruption := 10 }

/-- `Government.addCitizen`. -/
def Government.addCitizen (g : Government) (citizenId : String) : Government :=
  { g with citizens := addId g.citizens citizenId }

/-- `Government.removeCitizen` (removed from both id sets). -/
def Government.removeCitizen (g : Government) (citizenId : String) : Government :=
  { g with citizens := g.citizens.filter (· ≠ citizenId)
           officials := g.officials.filter (· ≠ citizenId) }

/-- `Government.addOfficial`. -/
def Government.addOfficial (g : Government) (citizenId : String) : Government :=
  { g with officials := addId g.officials citizenId
           citizens := addId g.citizens citizenId }

/-- `Government.setLeader`. -/
def Government.setLeader (g : Government) (c : Citizen) : Government :=
  ({ g with leader := some c.id } : Government).addOfficial c.id

/-- `Map.set` on the treasury association list: overwrite in place or
append. -/
def assocSet : List (Char × Nat) → Char → Nat → List (Char × Nat)
  | [], k, v => [(k, v)]
  | (k', v') :: rest, k, v =>
    if k' = k then (k, v) :: rest else (k', v') :: assocSet rest k v

/-- `Map.get || 0` on the treasury. -/
def treasuryGet (t : List (Char × Nat)) (r : Char) : Nat :=
  match t.find? (fun p => p.1 = r) with
  | some p => p.2
  | none => 0

/-- `Government.addToTreasury`. -/
def Government.addToTreasury (g : Government) (resource : Char) (amount : Nat) : Government :=
  { g with treasury := assocSet g.treasury resource (treasuryGet g.treasury resource + amount) }

/-- `Government.getTreasuryTotal`. -/
def Government.getTreasuryTotal (g : Government) : Nat :=
  (g.treasury.map (fun p => p.2)).sum

/-- `Government.getCitizenCount`. -/
def Government.getCitizenCount (g : Government) : Nat :=
  g.citizens.length

/-- `Government.addBuilding`: government buildings and roads are filed
into their respective lists; other landmark kinds are dropped. -/
def Government.addBuilding (g : Government) (landmark : Landmark) : Government :=
  if landmark.isGovernmentBuilding then
    { g with governmentBuildings := g.governmentBuildings ++ [landmark] }
  else if landmark.isRoad then
    { g with publicRoads := g.publicRoads ++ [landmark] }
  else g

/-- `Government.updateSatisfaction`. -/
def Government.updateSatisfaction (g : Government) (delta : ℚ) : Government :=
  { g with satisfaction := max 0 (min 100 (g.satisfaction + delta)) }

/-! ## World orchestrator (src/src/world/World.ts) -/

/-- The world-state slice the claims exercise.  The event queue is
write-only on every path a claim mentions and is omitted;
`cfgMovementSpeed`/`cfgVisionRange` stand for
`config.citizens.movementSpeed` / `visionRange`. -/
structure WorldState where
  grid : Grid
  citizens : List Citizen
  resources : List Resource
  landmarks : List Landmark
  governments : List Government
  tickCount : Int
  totalBuildings : Nat
  totalBirths : Nat
  cfgMovementSpeed : ℚ
  cfgVisionRange : ℚ
  rng : Rng
deriving Repr

/-- `World.canBuildAt`: in bounds and free of landmarks. -/
def canBuildAt (s : WorldState) (x y : Int) : Bool :=
  s.grid.isValidPosition ⟨x, y⟩ &&
  !(s.landmarks.any (fun l => l.position.x = x && l.position.y = y))

/-- The attempt loop of `World.getRandomEmptyPosition` (≤ 100 attempts;
two random draws per attempt; a position already carrying a landmark, an
uncollected resource or a citizen is rejected). -/
def getRandomEmptyPositionLoop (s : WorldState) : Nat → Rng → Option Position × Rng
  | 0, rng => (none, rng)
  | n + 1, rng =>
    let (rx, rng) := rng.next
    let (ry, rng) := rng.next
    let x : Int := ⌊rx * ((s.grid.width - 2 : Int) : ℚ)⌋ + 1
    let y : Int := ⌊ry * ((s.grid.height - 2 : Int) : ℚ)⌋ + 1
    let occupied :=
      s.landmarks.any (fun l => l.position.x = x && l.position.y = y) ||
      s.resources.any (fun r => r.position.x = x && r.position.y = y && !r.collected) ||
      s.citizens.any (fun c => c.position.x = x && c.position.y = y)
    if !occupied then (some ⟨x, y⟩, rng)
    else getRandomEmptyPositionLoop s n rng

/-- `World.getRandomEmptyPosition`. -/
def getRandomEmptyPosition (s : WorldState) (rng : Rng) : Option Position × Rng :=
  getRandomEmptyPositionLoop s 100 rng

/-- `World.findEmptyAdjacentCell`: the eight neighbor offsets in source
order; a cell is occupied when some landmark there is non-walkable or
some citizen stands there. -/
def findEmptyAdjacentCell (s : WorldState) (position : Position) : Option Position :=
  let offsets : List (Int × Int) :=
    [(-1, -1), (0, -1), (1, -1), (-1, 0), (1, 0), (-1, 1), (0, 1), (1, 1)]
  offsets.findSome? (fun o =>
    let pos : Position := ⟨position.x + o.1, position.y + o.2⟩
    if !s.grid.isValidPosition pos then none
    else
      let occupied :=
        s.landmarks.any (fun l => l.position.x = pos.x && l.position.y = pos.y && !l.isWalkable) ||
        s.citizens.any (fun c => c.position.x = pos.x && c.position.y = pos.y)
      if !occupied then some pos else none)

/-- `World.createOffspring`: empty adjacent cell, random parent emoji and
category, fresh id (the source builds the id from `Date.now()` and one
`Math.random()` draw; the draw is consumed and rendered into the id
here), then the newborn stat overrides. -/
def createOffspring (s : WorldState) (parent1 parent2 : Citizen)
    (rng : Rng) : Option Citizen × Rng :=
  match findEmptyAdjacentCell s parent1.position with
  | none => (none, rng)
  | some offspringPos =>
    let (re, rng) := rng.next
    let emoji := if re < 1/2 then parent1.emoji else parent2.emoji
    let (rc, rng) := rng.next
    let category := if rc < 1/2 then parent1.category else parent2.category
    let (rid, rng) := rng.next
    let offspring := Citizen.make
      ("citizen-" ++ toString s.tickCount ++ "-" ++ toString rid.num ++ "x" ++ toString rid.den)
      emoji offspringPos category s.cfgMovementSpeed s.cfgVisionRange
    let offspring := { offspring with
      energy := 50
      needs := { hunger := 30, energy := 50, social := 40 }
      age := 0 }
    (some offspring, rng)

/-- Resource-collection sweep for one citizen (`World.tick` lines
352–368): every uncollected resource at the citizen's position, in list
order, is offered to `collectResource` (which refuses past 10 items). -/
def collectStep (c : Citizen) : List Resource → Citizen × List Resource
  | [] => (c, [])
  | r :: rest =>
    if !r.collected && r.position.x = c.position.x && r.position.y = c.position.y then
      let (c, r) := c.collectResource r
      let (c, rest) := collectStep c rest
      (c, r :: rest)
    else
      let (c, rest) := collectStep c rest
      (c, r :: rest)

/-- Building-completion check for one citizen (`World.tick` lines
371–399): when the citizen carries a building target while not building
with zero progress, a landmark of the lowercased building type goes down
at the citizen's position (if buildable) and the target is cleared.
`BUILDING_RECIPES[...]` is a total table, so the `recipe &&` guard of the
source always passes. -/
def buildingCheck (s : WorldState) (citizen : Citizen) : WorldState × Citizen :=
  match citizen.buildingTarget with
  | none => (s, citizen)
  | some bt =>
    if !citizen.isBuilding && citizen.buildingProgress = 0 then
      let recipe := BUILDING_RECIPES bt
      let newLandmark :=
        Landmark.make ⟨citizen.position.x, citizen.position.y⟩ bt.toLandmarkType recipe.symbol
      let s :=
        if canBuildAt s citizen.position.x citizen.position.y then
          { s with landmarks := s.landmarks ++ [newLandmark]
                   totalBuildings := s.totalBuildings + 1 }
        else s
      (s, { citizen with buildingTarget := none })
    else (s, citizen)

/-- Breeding-consummation check for one citizen (`World.tick` lines
401–431).  The JS array holds the in-place-mutated citizen object, so
the check runs against the citizens list with the updated citizen
written back at index `i`: the partner lookup and, crucially,
`findEmptyAdjacentCell`'s occupancy scan see the breeder's *current*
(post-move) position — a cell the breeder vacated this tick counts as
free.  Fires only in `seeking_mate` state, with a mutual partner
reference, within breeding proximity, and only when an empty adjacent
cell exists for the offspring; the offspring is pushed onto the live
citizens list and both parents pay the breeding cost.  (`i` is the
loop index of the citizen; the partner is the live citizen carrying the
referenced id.) -/
def breedingCheck (s : WorldState) (i : Nat) (citizen : Citizen) : WorldState :=
  let s := { s with citizens := s.citizens.set i citizen }
  if citizen.state = .seeking_mate then
    match citizen.breedingPartner with
    | none => s
    | some pid =>
      match s.citizens.find? (fun c => c.id = pid) with
      | none => s
      | some partner =>
        if citizen.isNearbyTo partner && partner.breedingPartner = some citizen.id then
          let (offspringOpt, rng) := createOffspring s citizen partner s.rng
          let s := { s with rng := rng }
          match offspringOpt with
          | none => s
          | some offspring =>
            let (c', p') := citizen.breed partner s.tickCount
            let citizens := s.citizens.map (fun c => if c.id = pid then p' else c)
            let citizens := citizens.set i c'
            { s with citizens := citizens ++ [offspring]
                     totalBirths := s.totalBirths + 1 }
        else s
  else s

/-- One iteration of the per-citizen loop of `World.tick` (lines
317–431): position sanity check (an out-of-bounds citizen is moved to a
random empty position or skipped), `Citizen.update`, resource
collection, building completion, breeding consummation. -/
def citizenStep (s : WorldState) (i : Nat) : WorldState :=
  match s.citizens.get? i with
  | none => s
  | some citizen =>
    let (citizenOpt, rng) :=
      if !(s.grid.isValidPosition citizen.position) then
        let (posOpt, rng) := getRandomEmptyPosition s s.rng
        match posOpt with
        | some safePos => (some { citizen with position := safePos }, rng)
        | none => (none, rng)
      else (some citizen, s.rng)
    let s := { s with rng := rng }
    match citizenOpt with
    | none => s
    | some citizen =>
      let (citizen, rng) :=
        citizen.update s.grid s.citizens s.resources s.landmarks s.tickCount s.rng
      let s := { s with rng := rng }
      let (citizen, resources) := collectStep citizen s.resources
      let s := { s with resources := resources }
      let (s, citizen) := buildingCheck s citizen
      breedingCheck s i citizen

/-- The per-citizen loop: `i` runs while `i < citizens.length`; the list
may grow mid-loop (offspring), so the loop is fuel-indexed — any fuel
of at least `2 × initial population + 1` exhausts it, since each
iteration appends at most one citizen and newborns (age 1 at decision
time) never breed. -/
def citizensLoop : Nat → WorldState → Nat → WorldState
  | 0, s, _ => s
  | fuel + 1, s, i =>
    if i < s.citizens.length then citizensLoop fuel (citizenStep s i) (i + 1)
    else s

/-- The per-citizen phase of `World.tick`. -/
def citizensPhase (s : WorldState) (fuel : Nat) : WorldState :=
  citizensLoop fuel s 0

/-- One iteration of the membership loop of `World.formGovernment`
(`i = 0` → leader, `i = 1, 2` → officials, `i = 3, 4` → plain
citizens); the joining citizen's affiliation fields are set in the
world's citizen list. -/
def formJoinStep (govId : String) (joiners : List Citizen)
    (acc : Government × List Citizen) (iIdx : Nat) : Government × List Citizen :=
  match joiners.get? iIdx with
  | none => acc
  | some citizen =>
    if iIdx = 0 then
      (acc.1.setLeader citizen,
       acc.2.map (fun c => if c.id = citizen.id then c.joinGovernment govId .leader else c))
    else if iIdx < 3 then
      (acc.1.addOfficial citizen.id,
       acc.2.map (fun c => if c.id = citizen.id then c.joinGovernment govId .official else c))
    else
      (acc.1.addCitizen citizen.id,
       acc.2.map (fun c => if c.id = citizen.id then c.joinGovernment govId .citizen else c))

/-- `World.formGovernment`: a fresh government of a random type claims
the town hall; the first of the nearby citizens leads, the next two are
officials, further ones up to five join as plain citizens —
`Math.min(5, citizens.length)` caps membership at five. -/
def formGovernment (s : WorldState) (townHall : Landmark)
    (nearbyCitizens : List Citizen) : WorldState :=
  let govId := "gov_" ++ toString (s.governments.length + 1)
  let govName := "Government " ++ toString (s.governments.length + 1)
  let types : List GovernmentType := [.democracy, .monarchy, .council]
  let (rt, rng) := s.rng.next
  let govType := types.getD (Int.toNat ⌊rt * 3⌋) .council
  let government := Government.make govId govName govType s.tickCount
  let government := government.addBuilding townHall
  let joiners := nearbyCitizens.take 5
  let (government, citizens) :=
    (List.range joiners.length).foldl (formJoinStep govId joiners) (government, s.citizens)
  { s with governments := s.governments ++ [government]
           citizens := citizens
           rng := rng }

/-- The nearby-citizen filter of `World.checkGovernmentFormation`:
unaffiliated and within Euclidean distance 5 of the town hall
(squared distance ≤ 25). -/
def nearbyUnaffiliated (citizens : List Citizen) (townHall : Landmark) : List Citizen :=
  citizens.filter (fun c =>
    c.governmentId = none && distSq c.position townHall.position ≤ 25)

/-- Does this government hold a building at the given coordinates? -/
def govClaims (g : Government) (x y : Int) : Bool :=
  g.governmentBuildings.any (fun b => b.position.x = x && b.position.y = y)

/-- Does some government already claim a building at this town hall's
position? (`World.checkGovernmentFormation`'s `existingGov` search.) -/
def claimedByGovernment (governments : List Government) (townHall : Landmark) : Bool :=
  governments.any (fun g => govClaims g townHall.position.x townHall.position.y)

/-- The per-town-hall body of `World.checkGovernmentFormation`. -/
def formationAtTownHall (s : WorldState) (townHall : Landmark) : WorldState :=
  if claimedByGovernment s.governments townHall then s
  else
    let nearbyCitizens := nearbyUnaffiliated s.citizens townHall
    if nearbyCitizens.length ≥ 5 then formGovernment s townHall nearbyCitizens
    else s

/-- `World.checkGovernmentFormation`: every town-hall landmark is
examined in order against the *current* government list. -/
def checkGovernmentFormation (s : WorldState) : WorldState :=
  let townHalls := s.landmarks.filter (fun l => l.ltype = .town_hall)
  townHalls.foldl formationAtTownHall s

/-- `World.collectTaxes` for one government: each member id is looked up
and `payTax` is charged; every returned item lands in the treasury with
amount 1. -/
def collectTaxes (s : WorldState) (gov : Government) : Government × List Citizen :=
  gov.citizens.foldl
    (fun (acc : Government × List Citizen) citizenId =>
      match acc.2.find? (fun c => c.id = citizenId) with
      | none => acc
      | some citizen =>
        let (taxes, citizen') := citizen.payTax acc.1.taxRate s.tickCount
        let gov := taxes.foldl (fun g resource => g.addToTreasury resource 1) acc.1
        (gov, acc.2.map (fun c => if c.id = citizenId then citizen' else c)))
    (gov, s.citizens)

/-- Detention-release sweep of `World.tick` (lines 512–522): detained
citizens whose release tick has arrived are released. -/
def releaseDetainedSweep (s : WorldState) : WorldState :=
  { s with citizens := s.citizens.map (fun c =>
      if c.isDetained && s.tickCount ≥ c.detentionEndTime then c.releaseFromDetention
      else c) }

/-! ## Crime system (src/src/systems/PoliceSystem.ts, second document:
`CrimeSystem`) -/

/-- `CrimeType` union. -/
inductive CrimeType
  | THEFT | VANDALISM | ASSAULT | TRESPASSING | TAX_EVASION
deriving DecidableEq, Repr

/-- `Crime` record; `perpetrator` is the citizen's id (the source holds a
reference). -/
structure Crime where
  id : String
  ctype : CrimeType
  perpetrator : String
  location : Position
  tick : Int
  detected : Bool
  resolved : Bool
deriving DecidableEq, Repr

/-- `CRIME_DEFINITIONS` (penalty and detention columns; the emoji and
description strings play no role in behavior). -/
def crimePenalty : CrimeType → ℚ
  | .THEFT => 50
  | .VANDALISM => 80
  | .ASSAULT => 100
  | .TRESPASSING => 20
  | .TAX_EVASION => 40

/-- `CrimeSystemConfig` defaults (the `World` constructs `CrimeSystem`
with no overrides). -/
def crimeCheckInterval : Int := 10
def theftProbabilityUnemployed : ℚ := 1/50
def theftProbabilityLowSatisfaction : ℚ := 1/100
def vandalismProbability : ℚ := 1/200
def assaultProbability : ℚ := 3/1000
def trespassingProbability : ℚ := 1/100

/-- `CrimeSystem.commitTheft`: needs an uncollected resource within
distance 3 (squared ≤ 9). -/
def commitTheft (counter : Nat) (citizen : Citizen) (resources : List Resource)
    (tickCount : Int) : Option Crime × Citizen × Nat :=
  let nearbyResources := resources.filter (fun r =>
    !r.collected && distSq citizen.position r.position ≤ 9)
  if nearbyResources.length > 0 then
    let citizen := citizen.commitCrime (crimePenalty .THEFT)
    (some { id := "crime-" ++ toString counter, ctype := .THEFT
            perpetrator := citizen.id, location := citizen.position
            tick := tickCount, detected := false, resolved := false },
     citizen, counter + 1)
  else (none, citizen, counter)

/-- `CrimeSystem.commitVandalism`: needs a non-government, non-boundary
landmark within distance 2 (squared ≤ 4). -/
def commitVandalism (counter : Nat) (citizen : Citizen) (landmarks : List Landmark)
    (tickCount : Int) : Option Crime × Citizen × Nat :=
  let nearbyBuildings := landmarks.filter (fun l =>
    !l.isGovernmentBuilding && l.ltype ≠ .boundary &&
    distSq citizen.position l.position ≤ 4)
  if nearbyBuildings.length > 0 then
    let citizen := citizen.commitCrime (crimePenalty .VANDALISM)
    (some { id := "crime-" ++ toString counter, ctype := .VANDALISM
            perpetrator := citizen.id, location := citizen.position
            tick := tickCount, detected := false, resolved := false },
     citizen, counter + 1)
  else (none, citizen, counter)

/-- `CrimeSystem.commitAssault`: needs another citizen within distance 1
(squared ≤ 1); the first such victim loses 10 satisfaction. -/
def commitAssault (counter : Nat) (citizen : Citizen) (allCitizens : List Citizen)
    (tickCount : Int) : Option Crime × Citizen × List Citizen × Nat :=
  let nearbyCitizens := allCitizens.filter (fun c =>
    c.id ≠ citizen.id && distSq citizen.position c.position ≤ 1)
  match nearbyCitizens with
  | [] => (none, citizen, allCitizens, counter)
  | victim :: _ =>
    let citizen := citizen.commitCrime (crimePenalty .ASSAULT)
    let allCitizens := allCitizens.map (fun c =>
      if c.id = victim.id then c.updateGovernmentSatisfaction (-10) else c)
    (some { id := "crime-" ++ toString counter, ctype := .ASSAULT
            perpetrator := citizen.id, location := citizen.position
            tick := tickCount, detected := false, resolved := false },
     citizen, allCitizens, counter + 1)

/-- `CrimeSystem.commitTrespassing`: standing exactly on a government
building while role is independent. -/
def commitTrespassing (counter : Nat) (citizen : Citizen) (landmarks : List Landmark)
    (tickCount : Int) : Option Crime × Citizen × Nat :=
  let atGovernmentBuilding := landmarks.any (fun l =>
    l.isGovernmentBuilding && l.position.x = citizen.position.x &&
    l.position.y = citizen.position.y)
  if atGovernmentBuilding && citizen.governmentRole = .independent then
    let citizen := citizen.commitCrime (crimePenalty .TRESPASSING)
    (some { id := "crime-" ++ toString counter, ctype := .TRESPASSING
            perpetrator := citizen.id, location := citizen.position
            tick := tickCount, detected := false, resolved := false },
     citizen, counter + 1)
  else (none, citizen, counter)

/-- The theft gate of `evaluateCrimeBehavior`: a draw happens only when
the citizen is unemployed or dissatisfied, against the matching
probability. -/
def theftGate (c : Citizen) (rng : Rng) : Bool × Rng :=
  if !c.isEmployed || c.satisfaction < 30 then
    let theftProb := if !c.isEmployed then theftProbabilityUnemployed
                     else theftProbabilityLowSatisfaction
    let (r, rng) := rng.next
    (decide (r < theftProb), rng)
  else (false, rng)

/-- The vandalism gate: a draw only when satisfaction < 20. -/
def vandalismGate (c : Citizen) (rng : Rng) : Bool × Rng :=
  if c.satisfaction < 20 then
    let (r, rng) := rng.next
    (decide (r < vandalismProbability), rng)
  else (false, rng)

/-- The assault gate: a draw only when satisfaction < 15. -/
def assaultGate (c : Citizen) (rng : Rng) : Bool × Rng :=
  if c.satisfaction < 15 then
    let (r, rng) := rng.next
    (decide (r < assaultProbability), rng)
  else (false, rng)

/-- The trespassing gate: a draw only when social credit < 300. -/
def trespassingGate (c : Citizen) (rng : Rng) : Bool × Rng :=
  if c.socialCredit < 300 then
    let (r, rng) := rng.next
    (decide (r < trespassingProbability), rng)
  else (false, rng)

/-- `CrimeSystem.evaluateCrimeBehavior`: the four trigger checks in
source order; each random draw happens only when its guard holds
(short-circuit `&&` / `||`), and a passed probability gate returns the
committed crime *or null* without falling through to later checks. -/
def evaluateCrimeBehavior (counter : Nat) (citizen : Citizen)
    (allCitizens : List Citizen) (landmarks : List Landmark)
    (resources : List Resource) (tickCount : Int) (rng : Rng) :
    Option Crime × Citizen × List Citizen × Nat × Rng :=
  let (theftFire, rng) := theftGate citizen rng
  if theftFire then
    let (crime, citizen, counter) := commitTheft counter citizen resources tickCount
    (crime, citizen, allCitizens, counter, rng)
  else
    let (vandalismFire, rng) := vandalismGate citizen rng
    if vandalismFire then
      let (crime, citizen, counter) := commitVandalism counter citizen landmarks tickCount
      (crime, citizen, allCitizens, counter, rng)
    else
      let (assaultFire, rng) := assaultGate citizen rng
      if assaultFire then
        let (crime, citizen, allCitizens, counter) :=
          commitAssault counter citizen allCitizens tickCount
        (crime, citizen, allCitizens, counter, rng)
      else
        let (trespassingFire, rng) := trespassingGate citizen rng
        if trespassingFire then
          let (crime, citizen, counter) := commitTrespassing counter citizen landmarks tickCount
          (crime, citizen, allCitizens, counter, rng)
        else
          (none, citizen, allCitizens, counter, rng)

/-- The per-citizen crime-check loop of `CrimeSystem.update`: detained
or fleeing citizens are skipped outright; an evaluated citizen's updated
self is written back, newly produced crimes accumulate in order. -/
def crimeCheckLoop (landmarks : List Landmark) (resources : List Resource)
    (tickCount : Int) :
    Nat → List Citizen → List Crime → Nat → Rng →
    List Citizen × List Crime × Nat × Rng
  | 0, citizens, newCrimes, counter, rng => (citizens, newCrimes, counter, rng)
  | n + 1, citizens, newCrimes, counter, rng =>
    let idx := citizens.length - (n + 1)
    match citizens.get? idx with
    | none => crimeCheckLoop landmarks resources tickCount n citizens newCrimes counter rng
    | some citizen =>
      if citizen.isDetained || citizen.state = .fleeing then
        crimeCheckLoop landmarks resources tickCount n citizens newCrimes counter rng
      else
        let (crimeOpt, citizen', citizens', counter, rng) :=
          evaluateCrimeBehavior counter citizen citizens landmarks resources tickCount rng
        let citizens' := citizens'.set idx citizen'
        let newCrimes := match crimeOpt with
          | some crime => newCrimes ++ [crime]
          | none => newCrimes
        crimeCheckLoop landmarks resources tickCount n citizens' newCrimes counter rng

/-- `CrimeSystem.updateSocialCreditDecay`: every 100 ticks, +1 credit for
satisfied non-criminals, +0.5 for detained citizens (both can apply),
and +1 satisfaction for model citizens. -/
def updateSocialCreditDecay (citizens : List Citizen) (tickCount : Int) : List Citizen :=
  if tickCount % 100 ≠ 0 then citizens
  else
    citizens.map (fun citizen =>
      let citizen :=
        if !citizen.isCriminal && citizen.satisfaction > 60 then
          citizen.updateSocialCredit 1
        else citizen
      let citizen :=
        if citizen.isDetained then citizen.updateSocialCredit (1/2) else citizen
      if citizen.isModelCitizen then
        { citizen with satisfaction := min 100 (citizen.satisfaction + 1) }
      else citizen)

/-- `CrimeSystem.update`: the crime-check loop runs only on multiples of
`crimeCheckInterval`; then social-credit decay and the resolved-crime
prune (resolved crimes older than 500 ticks drop out).  Returns the
updated citizens, the system's crime list, the id counter, the rng, and
the newly created crimes. -/
def crimeSystemUpdate (citizens : List Citizen) (landmarks : List Landmark)
    (resources : List Resource) (tickCount : Int) (crimes : List Crime)
    (counter : Nat) (rng : Rng) :
    List Citizen × List Crime × Nat × Rng × List Crime :=
  let (citizens, newCrimes, counter, rng) :=
    if tickCount % crimeCheckInterval = 0 then
      crimeCheckLoop landmarks resources tickCount citizens.length citizens [] counter rng
    else (citizens, [], counter, rng)
  let crimes := crimes ++ newCrimes
  let citizens := updateSocialCreditDecay citizens tickCount
  let crimes := crimes.filter (fun c => !c.resolved || tickCount - c.tick < 500)
  (citizens, crimes, counter, rng, newCrimes)

/-! ## Police system (src/src/systems/PoliceSystem.ts, first document) -/

/-- `PoliceSystemConfig` defaults (the `World` constructs `PoliceSystem`
with no overrides). -/
def police_detectionRange : Int := 8
def police_arrestRange : Int := 1

/-- `PoliceSystem.arrestCriminal`: credit-tiered detention length, then
the arrest itself. -/
def arrestCriminal (criminal : Citizen) (tickCount : Int) : Citizen :=
  let detentionTime : Int :=
    if criminal.socialCredit < 100 then 200
    else if criminal.socialCredit < 200 then 150
    else 100
  criminal.getArrested detentionTime tickCount

/-- Outcome of `PoliceSystem.pursueCriminal`. -/
inductive PursuitResult
  | pursuing | arrested | lost
deriving DecidableEq, Repr

/-- `PoliceSystem.pursueCriminal` for one officer: a missing or already
detained target is lost; a target within `arrestRange` (squared
comparison) is arrested and pushed onto the arrests list; otherwise the
officer tracks the criminal, the criminal flees (target pushed 5 cells
away on each differing axis), and a target beyond twice the detection
range is lost. -/
def pursueCriminal (cop : Citizen) (criminalOpt : Option Citizen) (tickCount : Int) :
    PursuitResult × Citizen × Option Citizen × List Citizen :=
  match criminalOpt with
  | none => (.lost, cop, none, [])
  | some criminal =>
    if criminal.isDetained then (.lost, cop, some criminal, [])
    else
      let dSq := distSq cop.position criminal.position
      if dSq ≤ police_arrestRange * police_arrestRange then
        let criminal := arrestCriminal criminal tickCount
        (.arrested, cop, some criminal, [criminal])
      else
        let cop := { cop with target := some criminal.position }
        let criminal :=
          if criminal.state ≠ .fleeing then
            { criminal with
              state := .fleeing
              target := some ⟨criminal.position.x + Int.sign (criminal.position.x - cop.position.x) * 5,
                              criminal.position.y + Int.sign (criminal.position.y - cop.position.y) * 5⟩ }
          else criminal
        if dSq > (police_detectionRange * 2) * (police_detectionRange * 2) then
          (.lost, cop, some criminal, [])
        else
          (.pursuing, cop, some criminal, [])

/-- The arrest-processing block of `World.tick` (lines 490–506): for an
arrested citizen, every crime of the active list whose perpetrator is
that citizen is resolved (`resolveCrime` by unique crime id). -/
def resolveCrimesFor (crimes : List Crime) (arrestedId : String) : List Crime :=
  crimes.map (fun c => if c.perpetrator = arrestedId then { c with resolved := true } else c)

/-! ## C1 — per-citizen numeric bounds -/

/-- The numeric fields of a citizen that the spec's invariant bounds:
needs, stamina `energy`, `satisfaction`, `loyaltyToGov`, `socialCredit`.
Targeting/bookkeeping code never touches these. -/
def numericsOf (c : Citizen) : CitizenNeeds × ℚ × ℚ × ℚ × ℚ :=
  (c.needs, c.energy, c.satisfaction, c.loyaltyToGov, c.socialCredit)

/-- The amended per-citizen bounds: every clamped quantity stays in
range, but stamina `energy` keeps only its *upper* bound — its lower
bound is broken by `Citizen.breed`, which subtracts 20 with no
`Math.max(0, ...)` clamp. -/
abbrev Citizen.boundsAmended (c : Citizen) : Prop :=
  0 ≤ c.needs.hunger ∧ c.needs.hunger ≤ 100 ∧
  0 ≤ c.needs.energy ∧ c.needs.energy ≤ 100 ∧
  0 ≤ c.needs.social ∧ c.needs.social ≤ 100 ∧
  c.energy ≤ 100 ∧
  0 ≤ c.satisfaction ∧ c.satisfaction ≤ 100 ∧
  0 ≤ c.loyaltyToGov ∧ c.loyaltyToGov ≤ 100 ∧
  0 ≤ c.socialCredit ∧ c.socialCredit ≤ 1000

def cC1a : Citizen :=
  { Citizen.make "a1" "🙂" ⟨3, 3⟩ .people with
      needs := { hunger := 80, energy := 80, social := 80 }
      energy := 80, age := 500, breedingPartner := some "b1",
      target := some ⟨3, 3⟩ }

def cC1b : Citizen :=
  { Citizen.make "b1" "🙂" ⟨3, 4⟩ .people with
      needs := { hunger := 80, energy := 80, social := 80 }
      energy := 10, age := 500, breedingPartner := some "a1",
      target := some ⟨3, 4⟩ }

def sC1 : WorldState :=
  { grid := ⟨10, 10⟩
    citizens := [cC1b, cC1a]
    resources := []
    landmarks := []
    governments := []
    tickCount := 1
    totalBuildings := 0
    totalBirths := 0
    cfgMovementSpeed := 1
    cfgVisionRange := 5
    rng := [9/10, 1/20, 1/2, 1/2, 1/2] }

/-- Concrete member for the C5 witness: 10 items, never taxed. -/
def cC5 : Citizen :=
  { Citizen.make "citizen-0" "🙂" ⟨2, 2⟩ .people with
      inventory := ['A', 'B', 'C', 'D', 'E', 'F', 'G', 'H', 'I', 'J'] }

/-- Concrete government for the C5 witness (default 15% tax rate). -/
def govC5 : Government := Government.make "gov_1" "Government 1" .democracy 0

/-- Concrete citizen for the C9 witness: one item in inventory, standing
at (3,3). -/
def cC9 : Citizen :=
  { Citizen.make "citizen-0" "🙂" ⟨3, 3⟩ .people with inventory := ['B'] }

/-- Concrete resource for the C9 witness: uncollected `'A'` at (3,3). -/
def rC9 : Resource := { position := ⟨3, 3⟩, rtype := 'A', collected := false }

/-- Concrete citizen for the C10 witness: full 10-item inventory at
(3,3). -/
def cC10 : Citizen :=
  { Citizen.make "citizen-1" "🙂" ⟨3, 3⟩ .people with
      inventory := ['Q', 'W', 'E', 'R', 'T', 'Y', 'U', 'I', 'O', 'P'] }

/-- Concrete detained citizen for the C7 witness (would otherwise be a
prime theft candidate: unemployed, dissatisfied, resource underfoot). -/
def cC7 : Citizen :=
  { Citizen.make "c7" "😈" ⟨2, 2⟩ .people with
      satisfaction := 10, isDetained := true, detentionEndTime := 100,
      state := .detained }

/-- Concrete free citizen for the C7 witness who does commit theft on
the same tick, showing the crime check genuinely ran. -/
def cC7free : Citizen :=
  { Citizen.make "c8" "😠" ⟨2, 3⟩ .people with satisfaction := 10 }

/-- Concrete uncollected resource near both C7 citizens. -/
def rC7 : Resource := { position := ⟨2, 2⟩, rtype := 'A', collected := false }

/-- Concrete officer for the C6 witness. -/
def copC6 : Citizen :=
  { Citizen.make "cop" "👮" ⟨5, 5⟩ .people with job := some ⟨"POLICE_OFFICER"⟩ }

/-- Concrete criminal for the C6 witness: social credit 150 (second
tier), adjacent to the officer. -/
def crimC6 : Citizen :=
  { Citizen.make "crim" "😈" ⟨5, 6⟩ .people with
      socialCredit := 150, isCriminal := true }

/-- Concrete unresolved crime of the C6 criminal. -/
def crimeC6 : Crime :=
  { id := "crime-0", ctype := .THEFT, perpetrator := "crim", location := ⟨5, 6⟩,
    tick := 990, detected := true, resolved := false }

/-- Concrete world for the C8 witness: an unclaimed town hall at
(10,10) and five unaffiliated citizens within radius 5. -/
def sC8 : WorldState :=
  { grid := ⟨20, 20⟩
    citizens :=
      [Citizen.make "c1" "🙂" ⟨8, 10⟩ .people,
       Citizen.make "c2" "🙂" ⟨9, 10⟩ .people,
       Citizen.make "c3" "🙂" ⟨11, 10⟩ .people,
       Citizen.make "c4" "🙂" ⟨12, 10⟩ .people,
       Citizen.make "c5" "🙂" ⟨10, 12⟩ .people]
    resources := []
    landmarks := [Landmark.make ⟨10, 10⟩ .town_hall "🏛"]
    governments := []
    tickCount := 1
    totalBuildings := 0
    totalBirths := 0
    cfgMovementSpeed := 1
    cfgVisionRange := 5
    rng := [0, 0, 0, 0] }

/-! ## C4 — government formation membership -/

/-- The unclaimed town hall of the C4 scenario. -/
def thC4 : Landmark := Landmark.make ⟨10, 10⟩ .town_hall "🏛"

/-- Concrete world for C4: six unaffiliated citizens within radius 5 of
the town hall. -/
def sC4 : WorldState :=
  { grid := ⟨20, 20⟩
    citizens :=
      [Citizen.make "c1" "🙂" ⟨8, 10⟩ .people,
       Citizen.make "c2" "🙂" ⟨9, 10⟩ .people,
       Citizen.make "c3" "🙂" ⟨11, 10⟩ .people,
       Citizen.make "c4" "🙂" ⟨12, 10⟩ .people,
       Citizen.make "c5" "🙂" ⟨10, 12⟩ .people,
       Citizen.make "c6" "🙂" ⟨10, 8⟩ .people]
    resources := []
    landmarks := [thC4]
    governments := []
    tickCount := 1
    totalBuildings := 0
    totalBirths := 0
    cfgMovementSpeed := 1
    cfgVisionRange := 5
    rng := [0, 0, 0, 0] }

/-! ## C2 — building landmark placement -/

/-- Concrete world for C2: one citizen with an *empty* inventory, an
uncollected `'H'` on the map (so a freshly planned HOME build is not
cancelled), no landmarks.  The random stream makes `shouldBuild` fire
(0.01 < 0.05), `planBuilding` pick HOME (0.1 < 0.7, index ⌊0·7⌋ = 0),
and the move step go diagonally (0.7 > 0.5). -/
def sC2 : WorldState :=
  { grid := ⟨10, 10⟩
    citizens :=
      [{ Citizen.make "b1" "🙂" ⟨3, 3⟩ .people with
           needs := { hunger := 80, energy := 80, social := 80 }, age := 10 }]
    resources := [{ position := ⟨6, 6⟩, rtype := 'H', collected := false }]
    landmarks := []
    governments := []
    tickCount := 1
    totalBuildings := 0
    totalBirths := 0
    cfgMovementSpeed := 1
    cfgVisionRange := 5
    rng := [1/100, 1/10, 0, 7/10] }

/-! ## C3 — breeding consummation -/

/-- Concrete world for C3: two citizens that mutually reference each
other as breeding partner, standing at distance 1, population 2 < 100 —
but the first is hungry (hunger 10 < 30), so its decision pass puts it
into `seeking_resource`, not `seeking_mate`, and the second is too young
to enter `seeking_mate` either. -/
def sC3 : WorldState :=
  { grid := ⟨10, 10⟩
    citizens :=
      [{ Citizen.make "a1" "🙂" ⟨3, 3⟩ .people with
           needs := { hunger := 10, energy := 80, social := 80 }
           energy := 30, age := 500, breedingPartner := some "b1",
           target := some ⟨3, 3⟩ },
       { Citizen.make "b1" "🙂" ⟨3, 4⟩ .people with
           needs := { hunger := 80, energy := 80, social := 80 }
           energy := 30, age := 10, breedingPartner := some "a1",
           target := some ⟨3, 4⟩ }]
    resources := []
    landmarks := []
    governments := []
    tickCount := 1
    totalBuildings := 0
    totalBirths := 0
    cfgMovementSpeed := 1
    cfgVisionRange := 5
    rng := [9/10] }

/-- Concrete loop snapshot for the amended C3: citizen `a1` is in
`seeking_mate` with a mutual partner reference to `b1` one cell away. -/
def cC3w : Citizen :=
  { Citizen.make "a1" "🙂" ⟨3, 3⟩ .people with
      state := .seeking_mate, breedingPartner := some "b1", age := 500 }

def pC3w : Citizen :=
  { Citizen.make "b1" "🙂" ⟨3, 4⟩ .people with
      breedingPartner := some "a1", age := 500 }

def sC3w : WorldState :=
  { grid := ⟨10, 10⟩
    citizens := [cC3w, pC3w]
    resources := []
    landmarks := []
    governments := []
    tickCount := 7
    totalBuildings := 0
    totalBirths := 0
    cfgMovementSpeed := 1
    cfgVisionRange := 5
    rng := [1/2, 1/2, 1/2, 1/2] }

/-! ## Shared lemmas -/

/-- The `payTax` shift loop removes exactly the first `n` items (capped
by the inventory length) and returns them in order. -/
theorem payTaxLoop_eq (n : Nat) : ∀ (inv acc : List Char),
    payTaxLoop n inv acc = (acc ++ inv.take n, inv.drop n) := by
  induction n with
  | zero => intro inv acc; simp [payTaxLoop]
  | succ n ih =>
    intro inv acc
    cases inv with
    | nil => simp [payTaxLoop]
    | cons x xs => simp [payTaxLoop, ih xs (acc ++ [x])]

/-- Treasury bookkeeping: `Map.set` with value `v` at key `k` changes the
value sum by replacing `k`'s previous contribution with `v`. -/
theorem assocSet_total (t : List (Char × Nat)) (k : Char) (v : Nat) :
    ((assocSet t k v).map (fun p => p.2)).sum + treasuryGet t k
      = (t.map (fun p => p.2)).sum + v := by
  induction t with
  | nil => simp [assocSet, treasuryGet]
  | cons hd rest ih =>
    by_cases hk : hd.1 = k
    · simp [assocSet, treasuryGet, hk, List.find?]
      omega
    · simp [assocSet, treasuryGet, hk, List.find?] at ih ⊢
      omega

/-- `addToTreasury _ 1` raises the treasury total by one. -/
theorem addToTreasury_total (g : Government) (r : Char) :
    (g.addToTreasury r 1).getTreasuryTotal = g.getTreasuryTotal + 1 := by
  have h := assocSet_total g.treasury r (treasuryGet g.treasury r + 1)
  simp only [Government.addToTreasury, Government.getTreasuryTotal]
  omega

/-- Folding a list of collected tax items into the treasury raises the
total by the number of items (the inner loop of `World.collectTaxes`). -/
theorem treasury_fold_total (items : List Char) : ∀ (g : Government),
    (items.foldl (fun g item => g.addToTreasury item 1) g).getTreasuryTotal
      = g.getTreasuryTotal + items.length := by
  induction items with
  | nil => intro g; simp
  | cons x xs ih =>
    intro g
    simp only [List.foldl_cons, ih, addToTreasury_total, List.length_cons]
    omega

/-! ## C5 — tax collection -/

/-- C5: at a tax tick (100 ticks since the member's last payment),
`payTax` removes exactly `min ⌊len × taxRate⌋ len` items, oldest-first
(the front of the inventory), the remaining inventory is the
corresponding suffix (so its length never goes negative), and feeding
the removed items to the government treasury (the `World.collectTaxes`
inner loop) raises the treasury total by exactly that count.  With
`taxRate = 0.15` and 10 items, exactly one item moves (see the
witness). -/
theorem C5_tax_collection (c : Citizen) (gov : Government) (tickCount : Int)
    (hdue : tickCount - c.lastTaxTime ≥ 100) :
    (c.payTax gov.taxRate tickCount).1
        = c.inventory.take (Int.toNat ⌊(c.inventory.length : ℚ) * gov.taxRate⌋) ∧
    (c.payTax gov.taxRate tickCount).2.inventory
        = c.inventory.drop (Int.toNat ⌊(c.inventory.length : ℚ) * gov.taxRate⌋) ∧
    (c.payTax gov.taxRate tickCount).1.length
        = min (Int.toNat ⌊(c.inventory.length : ℚ) * gov.taxRate⌋) c.inventory.length ∧
    (c.payTax gov.taxRate tickCount).2.inventory.length + (c.payTax gov.taxRate tickCount).1.length
        = c.inventory.length ∧
    ((c.payTax gov.taxRate tickCount).1.foldl
        (fun g item => g.addToTreasury item 1) gov).getTreasuryTotal
      = gov.getTreasuryTotal
          + min (Int.toNat ⌊(c.inventory.length : ℚ) * gov.taxRate⌋) c.inventory.length := by
  have hnotlt : ¬ (tickCount - c.lastTaxTime < 100) := by omega
  simp only [Citizen.payTax, hnotlt, if_false, payTaxLoop_eq, List.nil_append]
  constructor
  · split <;> rfl
  constructor
  · split <;> rfl
  constructor
  · split <;> simp [List.length_take]
  constructor
  · split <;> simp [List.length_take, List.length_drop] <;> omega
  · split <;> simp [treasury_fold_total, List.length_take]

/-- Witness for C5: a member with a 10-item inventory, the default 15%
tax rate, at a due tick: exactly one item (the oldest, `'A'`) moves, and
the treasury total goes from 0 to 1. -/
theorem C5_tax_collection_witness :
    ((0 : Int) - cC5.lastTaxTime ≥ 100) ∧
    (cC5.payTax govC5.taxRate 0).1 = ['A'] ∧
    (cC5.payTax govC5.taxRate 0).2.inventory = ['B', 'C', 'D', 'E', 'F', 'G', 'H', 'I', 'J'] ∧
    ((cC5.payTax govC5.taxRate 0).1.foldl
        (fun g item => g.addToTreasury item 1) govC5).getTreasuryTotal = 1 :=
  ⟨by decide,
   ((C5_tax_collection cC5 govC5 0 (by decide)).1).trans
     (by norm_num [cC5, govC5, Citizen.make, Government.make]),
   ((C5_tax_collection cC5 govC5 0 (by decide)).2.1).trans
     (by norm_num [cC5, govC5, Citizen.make, Government.make]),
   ((C5_tax_collection cC5 govC5 0 (by decide)).2.2.2.2).trans
     (by norm_num [cC5, govC5, Citizen.make, Government.make, Government.getTreasuryTotal])⟩

/-! ## C9 / C10 — resource collection at the citizen's tile -/

/-- A sweep over resources none of which is an uncollected match at the
citizen's position changes nothing. -/
theorem collectStep_no_match (c : Citizen) (resources : List Resource)
    (h : ∀ r ∈ resources,
      ¬(!r.collected && r.position.x = c.position.x && r.position.y = c.position.y) = true) :
    collectStep c resources = (c, resources) := by
  induction resources with
  | nil => rfl
  | cons r rest ih =>
    have hr := h r (List.mem_cons_self r rest)
    have hrest := ih (fun x hx => h x (List.mem_cons_of_mem r hx))
    simp only [collectStep]
    rw [if_neg hr, hrest]

/-- Mapping a guarded update over a list where the guard never fires is
the identity. -/
theorem map_guard_no_match {p : Resource → Bool} {f : Resource → Resource}
    (rest : List Resource) (h : ∀ y ∈ rest, ¬p y = true) :
    rest.map (fun y => if p y then f y else y) = rest := by
  induction rest with
  | nil => rfl
  | cons z zs ih =>
    simp only [List.map_cons, if_neg (h z (List.mem_cons_self z zs))]
    rw [ih (fun y hy => h y (List.mem_cons_of_mem z hy))]

/-- C9: a citizen with a non-full inventory standing on the tile of the
single uncollected resource there ends the collection sweep of
`World.tick` with that resource marked collected and its letter appended
to the inventory (every other resource untouched). -/
theorem C9_resource_collection (c : Citizen) (resources : List Resource) (r : Resource)
    (hlen : c.inventory.length < 10)
    (hfilter : resources.filter
      (fun x => !x.collected && x.position.x = c.position.x && x.position.y = c.position.y)
      = [r]) :
    (collectStep c resources).1.inventory = c.inventory ++ [r.rtype] ∧
    (collectStep c resources).2 = resources.map
      (fun x => if !x.collected && x.position.x = c.position.x && x.position.y = c.position.y
                then x.collect else x) := by
  induction resources with
  | nil => simp at hfilter
  | cons x rest ih =>
    by_cases hx : (!x.collected && x.position.x = c.position.x && x.position.y = c.position.y) = true
    · rw [List.filter_cons, if_pos hx] at hfilter
      obtain ⟨hxr, hrestnil⟩ := List.cons_eq_cons.mp hfilter
      subst hxr
      have hnorest : ∀ y ∈ rest,
          ¬(!y.collected && y.position.x = c.position.x && y.position.y = c.position.y) = true := by
        intro y hy hcontra
        have hmem : y ∈ rest.filter
            (fun z => !z.collected && z.position.x = c.position.x && z.position.y = c.position.y) :=
          List.mem_filter.mpr ⟨hy, hcontra⟩
        rw [hrestnil] at hmem
        exact absurd hmem (List.not_mem_nil y)
      have hcollect : c.collectResource x
          = ({ c with inventory := c.inventory ++ [x.rtype] }, x.collect) := by
        simp [Citizen.collectResource, hlen]
      have hrest := collectStep_no_match { c with inventory := c.inventory ++ [x.rtype] } rest hnorest
      refine ⟨?_, ?_⟩
      · simp only [collectStep, if_pos hx, hcollect, hrest]
      · simp only [collectStep, if_pos hx, hcollect, hrest, List.map_cons]
        rw [map_guard_no_match rest hnorest]
    · rw [List.filter_cons, if_neg hx] at hfilter
      obtain ⟨h1, h2⟩ := ih hfilter
      refine ⟨?_, ?_⟩
      · simp only [collectStep, if_neg hx]
        exact h1
      · simp only [collectStep, if_neg hx, List.map_cons]
        exact congrArg (x :: ·) h2

/-- Witness for C9: after the collection sweep the resource is collected
and `'A'` sits at the end of the inventory. -/
theorem C9_resource_collection_witness :
    cC9.inventory.length < 10 ∧
    [rC9].filter
      (fun x => !x.collected && x.position.x = cC9.position.x && x.position.y = cC9.position.y)
      = [rC9] ∧
    (collectStep cC9 [rC9]).1.inventory = ['B', 'A'] ∧
    (collectStep cC9 [rC9]).2 = [{ position := ⟨3, 3⟩, rtype := 'A', collected := true }] :=
  ⟨by decide, by decide,
   (C9_resource_collection cC9 [rC9] rC9 (by decide) (by decide)).1.trans (by decide),
   (C9_resource_collection cC9 [rC9] rC9 (by decide) (by decide)).2.trans (by decide)⟩

/-- C10: a citizen whose inventory already holds 10 items leaves the
collection sweep with an unchanged inventory and every resource — in
particular an uncollected one at the citizen's tile — exactly as it was,
still available on the ground. -/
theorem C10_full_inventory (c : Citizen) (resources : List Resource)
    (hlen : c.inventory.length = 10) :
    collectStep c resources = (c, resources) := by
  induction resources with
  | nil => rfl
  | cons r rest ih =>
    have hnc : c.collectResource r = (c, r) := by
      simp [Citizen.collectResource, hlen]
    by_cases hr : (!r.collected && r.position.x = c.position.x && r.position.y = c.position.y) = true
    · simp only [collectStep, if_pos hr, hnc, ih]
    · simp only [collectStep, if_neg hr, ih]

/-- Witness for C10: the sweep over an uncollected resource at the full
citizen's own tile changes neither the citizen nor the resource. -/
theorem C10_full_inventory_witness :
    cC10.inventory.length = 10 ∧
    collectStep cC10 [rC9] = (cC10, [rC9]) :=
  ⟨by decide, C10_full_inventory cC10 [rC9] (by decide)⟩

/-! ## C7 — detained citizens and crime evaluation -/

/-- `commitCrime` (a social-credit update) does not change identity or
detention fields. -/
theorem commitCrime_fields (c : Citizen) (p : ℚ) :
    (c.commitCrime p).id = c.id ∧ (c.commitCrime p).isDetained = c.isDetained := by
  simp [Citizen.commitCrime, Citizen.updateSocialCredit]

/-- `updateGovernmentSatisfaction` does not change identity or detention
fields. -/
theorem updateGovernmentSatisfaction_fields (c : Citizen) (d : ℚ) :
    (c.updateGovernmentSatisfaction d).id = c.id ∧
    (c.updateGovernmentSatisfaction d).isDetained = c.isDetained := by
  simp only [Citizen.updateGovernmentSatisfaction]
  split
  · exact ⟨rfl, rfl⟩
  · split
    · exact ⟨rfl, rfl⟩
    · exact ⟨rfl, rfl⟩

/-- `commitTheft`: a produced crime names the evaluated citizen as
perpetrator; the citizen's identity survives. -/
theorem commitTheft_perp (k : Nat) (c : Citizen) (res : List Resource) (t : Int) :
    (∀ cr, (commitTheft k c res t).1 = some cr → cr.perpetrator = c.id) ∧
    (commitTheft k c res t).2.1.id = c.id := by
  simp only [commitTheft]
  split
  · constructor
    · intro cr h
      obtain rfl := (Option.some.injEq _ _).mp h
      exact (commitCrime_fields c (crimePenalty .THEFT)).1
    · exact (commitCrime_fields c (crimePenalty .THEFT)).1
  · exact ⟨fun cr h => by simp at h, rfl⟩

/-- `commitVandalism`: same perpetrator discipline. -/
theorem commitVandalism_perp (k : Nat) (c : Citizen) (lms : List Landmark) (t : Int) :
    (∀ cr, (commitVandalism k c lms t).1 = some cr → cr.perpetrator = c.id) ∧
    (commitVandalism k c lms t).2.1.id = c.id := by
  simp only [commitVandalism]
  split
  · constructor
    · intro cr h
      obtain rfl := (Option.some.injEq _ _).mp h
      exact (commitCrime_fields c (crimePenalty .VANDALISM)).1
    · exact (commitCrime_fields c (crimePenalty .VANDALISM)).1
  · exact ⟨fun cr h => by simp at h, rfl⟩

/-- `commitTrespassing`: same perpetrator discipline. -/
theorem commitTrespassing_perp (k : Nat) (c : Citizen) (lms : List Landmark) (t : Int) :
    (∀ cr, (commitTrespassing k c lms t).1 = some cr → cr.perpetrator = c.id) ∧
    (commitTrespassing k c lms t).2.1.id = c.id := by
  simp only [commitTrespassing]
  split
  · constructor
    · intro cr h
      obtain rfl := (Option.some.injEq _ _).mp h
      exact (commitCrime_fields c (crimePenalty .TRESPASSING)).1
    · exact (commitCrime_fields c (crimePenalty .TRESPASSING)).1
  · exact ⟨fun cr h => by simp at h, rfl⟩

/-- `commitAssault`: perpetrator discipline, identity preservation, and
the victim update only adjusts satisfaction (id and detention survive on
every list member). -/
theorem commitAssault_perp (k : Nat) (c : Citizen) (all : List Citizen) (t : Int) :
    (∀ cr, (commitAssault k c all t).1 = some cr → cr.perpetrator = c.id) ∧
    (commitAssault k c all t).2.1.id = c.id ∧
    (∀ x ∈ (commitAssault k c all t).2.2.1, ∃ y ∈ all,
        x.id = y.id ∧ x.isDetained = y.isDetained) := by
  simp only [commitAssault]
  split
  · exact ⟨fun cr h => by simp at h, rfl, fun x hx => ⟨x, hx, rfl, rfl⟩⟩
  · refine ⟨fun cr h => ?_, (commitCrime_fields c (crimePenalty .ASSAULT)).1, ?_⟩
    · obtain rfl := (Option.some.injEq _ _).mp h
      exact (commitCrime_fields c (crimePenalty .ASSAULT)).1
    intro x hx
    obtain ⟨y, hy, hxy⟩ := List.mem_map.mp hx
    subst hxy
    refine ⟨y, hy, ?_⟩
    split
    · exact ⟨(updateGovernmentSatisfaction_fields y _).1,
             (updateGovernmentSatisfaction_fields y _).2⟩
    · exact ⟨rfl, rfl⟩

/-- `evaluateCrimeBehavior` only ever records the evaluated citizen as
perpetrator, keeps that citizen's identity, and touches the rest of the
population only through the assault victim's satisfaction (ids and
detention flags survive). -/
theorem evaluateCrimeBehavior_perp (k : Nat) (c : Citizen) (all : List Citizen)
    (lms : List Landmark) (res : List Resource) (t : Int) (rng : Rng) :
    (∀ cr, (evaluateCrimeBehavior k c all lms res t rng).1 = some cr → cr.perpetrator = c.id) ∧
    (evaluateCrimeBehavior k c all lms res t rng).2.1.id = c.id ∧
    (∀ x ∈ (evaluateCrimeBehavior k c all lms res t rng).2.2.1, ∃ y ∈ all,
        x.id = y.id ∧ x.isDetained = y.isDetained) := by
  rcases h1 : theftGate c rng with ⟨tf, rng1⟩
  cases tf
  case true =>
    obtain ⟨p1, p2⟩ := commitTheft_perp k c res t
    rcases hc : commitTheft k c res t with ⟨crimeOpt, cz, k'⟩
    rw [hc] at p1 p2
    simp only [evaluateCrimeBehavior, h1, hc, if_true]
    exact ⟨fun cr h => p1 cr h, p2, fun x hx => ⟨x, hx, rfl, rfl⟩⟩
  case false =>
  rcases h2 : vandalismGate c rng1 with ⟨vf, rng2⟩
  cases vf
  case true =>
    obtain ⟨p1, p2⟩ := commitVandalism_perp k c lms t
    rcases hc : commitVandalism k c lms t with ⟨crimeOpt, cz, k'⟩
    rw [hc] at p1 p2
    simp only [evaluateCrimeBehavior, h1, h2, hc, if_true, if_false, Bool.false_eq_true]
    exact ⟨fun cr h => p1 cr h, p2, fun x hx => ⟨x, hx, rfl, rfl⟩⟩
  case false =>
  rcases h3 : assaultGate c rng2 with ⟨af, rng3⟩
  cases af
  case true =>
    obtain ⟨p1, p2, p3⟩ := commitAssault_perp k c all t
    rcases hc : commitAssault k c all t with ⟨crimeOpt, cz, all', k'⟩
    rw [hc] at p1 p2 p3
    simp only [evaluateCrimeBehavior, h1, h2, h3, hc, if_true, if_false, Bool.false_eq_true]
    exact ⟨fun cr h => p1 cr h, p2, fun x hx => p3 x hx⟩
  case false =>
  rcases h4 : trespassingGate c rng3 with ⟨pf, rng4⟩
  cases pf
  case true =>
    obtain ⟨p1, p2⟩ := commitTrespassing_perp k c lms t
    rcases hc : commitTrespassing k c lms t with ⟨crimeOpt, cz, k'⟩
    rw [hc] at p1 p2
    simp only [evaluateCrimeBehavior, h1, h2, h3, h4, hc, if_true, if_false, Bool.false_eq_true]
    exact ⟨fun cr h => p1 cr h, p2, fun x hx => ⟨x, hx, rfl, rfl⟩⟩
  case false =>
    simp only [evaluateCrimeBehavior, h1, h2, h3, h4, if_false, Bool.false_eq_true]
    exact ⟨fun cr h => by simp at h, trivial, fun x hx => ⟨x, hx, rfl, rfl⟩⟩

/-- The crime-check loop never records a crime naming a detained citizen
as perpetrator, and the every-carrier-of-a-detained-id-is-detained
property survives the loop's citizen writes. -/
theorem crimeCheckLoop_no_detained_perp (lms : List Landmark) (res : List Resource)
    (t : Int) (cid : String) :
    ∀ (n : Nat) (citizens : List Citizen) (acc : List Crime) (k : Nat) (rng : Rng),
    (∀ x ∈ citizens, x.id = cid → x.isDetained = true) →
    (∀ cr ∈ acc, cr.perpetrator ≠ cid) →
    (∀ cr ∈ (crimeCheckLoop lms res t n citizens acc k rng).2.1, cr.perpetrator ≠ cid) := by
  intro n
  induction n with
  | zero =>
    intro citizens acc k rng _ hacc
    exact hacc
  | succ n ih =>
    intro citizens acc k rng hdet hacc
    rcases hg : citizens.get? (citizens.length - (n + 1)) with _ | citizen
    · simp only [crimeCheckLoop, hg]
      exact ih citizens acc k rng hdet hacc
    · by_cases hskip : (citizen.isDetained || citizen.state = CitizenState.fleeing) = true
      · simp only [crimeCheckLoop, hg, hskip, if_true]
        exact ih citizens acc k rng hdet hacc
      · have hcmem : citizen ∈ citizens := List.get?_mem hg
        have hcid : citizen.id ≠ cid := by
          intro hcontra
          have hd := hdet citizen hcmem hcontra
          simp [hd] at hskip
        obtain ⟨p1, p2, p3⟩ := evaluateCrimeBehavior_perp k citizen citizens lms res t rng
        rcases he : evaluateCrimeBehavior k citizen citizens lms res t rng
          with ⟨crimeOpt, cz, czs, k2, rng2⟩
        rw [he] at p1 p2 p3
        have hdet' : ∀ x ∈ czs.set (citizens.length - (n + 1)) cz,
            x.id = cid → x.isDetained = true := by
          intro x hx hxid
          rcases List.mem_or_eq_of_mem_set hx with hmem | hxeq
          · obtain ⟨y, hy, hid, hdetained⟩ := p3 x hmem
            rw [hdetained]
            exact hdet y hy (hid ▸ hxid)
          · subst hxeq
            rw [p2] at hxid
            exact absurd hxid hcid
        cases crimeOpt with
        | none =>
          simp only [crimeCheckLoop, hg, hskip, if_false, Bool.false_eq_true, he]
          exact ih _ acc k2 rng2 hdet' hacc
        | some crime =>
          have hperp : crime.perpetrator = citizen.id := p1 crime rfl
          simp only [crimeCheckLoop, hg, hskip, if_false, Bool.false_eq_true, he]
          apply ih _ (acc ++ [crime]) k2 rng2 hdet'
          intro cr hcr
          rcases List.mem_append.mp hcr with hin | hone
          · exact hacc cr hin
          · rw [List.mem_singleton.mp hone, hperp]
            exact hcid

/-- C7: while a citizen is detained (flag set, release tick not yet
reached), a full `CrimeSystem.update` pass produces no new crime naming
that citizen as perpetrator (detained citizens are skipped before any
trigger is evaluated). -/
theorem C7_detained_not_evaluated (citizens : List Citizen) (landmarks : List Landmark)
    (resources : List Resource) (tickCount : Int) (crimes : List Crime)
    (counter : Nat) (rng : Rng) (cid : String)
    (hdet : ∀ x ∈ citizens, x.id = cid →
      x.isDetained = true ∧ tickCount < x.detentionEndTime) :
    ∀ cr ∈ (crimeSystemUpdate citizens landmarks resources tickCount crimes counter rng).2.2.2.2,
      cr.perpetrator ≠ cid := by
  have hdet' : ∀ x ∈ citizens, x.id = cid → x.isDetained = true :=
    fun x hx hxid => (hdet x hx hxid).1
  intro cr hcr
  simp only [crimeSystemUpdate] at hcr
  by_cases hint : tickCount % crimeCheckInterval = 0
  · rw [if_pos hint] at hcr
    exact crimeCheckLoop_no_detained_perp landmarks resources tickCount cid
      citizens.length citizens [] counter rng hdet' (by intro c hc; simp at hc) cr hcr
  · rw [if_neg hint] at hcr
    simp at hcr

/-- Witness for C7: on a crime-check tick (10), the detained citizen is
skipped — no recorded crime names it — while the free citizen's theft
does go through (the sweep was live). -/
theorem C7_detained_not_evaluated_witness :
    (∀ x ∈ [cC7, cC7free], x.id = "c7" →
        x.isDetained = true ∧ (10 : Int) < x.detentionEndTime) ∧
    (∀ cr ∈ (crimeSystemUpdate [cC7, cC7free] [] [rC7] 10 [] 0 [0, 0, 0, 0]).2.2.2.2,
        cr.perpetrator ≠ "c7") ∧
    ((crimeSystemUpdate [cC7, cC7free] [] [rC7] 10 [] 0 [0, 0, 0, 0]).2.2.2.2.map
        (fun cr => cr.perpetrator)) = ["c8"] :=
  ⟨by decide,
   C7_detained_not_evaluated [cC7, cC7free] [] [rC7] 10 [] 0 [0, 0, 0, 0] "c7" (by decide),
   by decide⟩

/-! ## C6 — arrest on contact, credit-tiered detention, release -/

/-- `releaseFromDetention` clears the flag and keeps the stored release
tick. -/
theorem releaseFromDetention_fields (c : Citizen) :
    (c.releaseFromDetention).isDetained = false ∧
    (c.releaseFromDetention).detentionEndTime = c.detentionEndTime := by
  simp [Citizen.releaseFromDetention, Citizen.updateSocialCredit]

/-- C6: a pursuing officer whose (not yet detained) target criminal is
within `arrestRange` arrests it: the pursuit ends in `arrested`, the
criminal (the sole arrest of this pursuit) is detained with release tick
`now + 200/150/100` by the credit tiers `<100 / <200 / otherwise`; the
`World.tick` arrest block resolves every active crime naming the
criminal; and after the detention-release sweep nobody whose stored
release tick has been reached is still detained. -/
theorem C6_arrest (cop criminal : Citizen) (tickCount : Int) (crimes : List Crime)
    (hnd : criminal.isDetained = false)
    (hrange : distSq cop.position criminal.position ≤ police_arrestRange * police_arrestRange) :
    (pursueCriminal cop (some criminal) tickCount).1 = PursuitResult.arrested ∧
    (pursueCriminal cop (some criminal) tickCount).2.2.2 = [arrestCriminal criminal tickCount] ∧
    (arrestCriminal criminal tickCount).isDetained = true ∧
    (arrestCriminal criminal tickCount).detentionEndTime
      = tickCount + (if criminal.socialCredit < 100 then 200
          else if criminal.socialCredit < 200 then 150 else 100) ∧
    (∀ cr ∈ resolveCrimesFor crimes criminal.id,
        cr.perpetrator = criminal.id → cr.resolved = true) ∧
    (∀ s : WorldState, ∀ x ∈ (releaseDetainedSweep s).citizens,
        x.isDetained = true → s.tickCount < x.detentionEndTime) := by
  have hpursue : pursueCriminal cop (some criminal) tickCount
      = (.arrested, cop, some (arrestCriminal criminal tickCount),
         [arrestCriminal criminal tickCount]) := by
    simp only [pursueCriminal, hnd, Bool.false_eq_true, if_false, if_pos hrange]
  refine ⟨by rw [hpursue], by rw [hpursue], ?_, ?_, ?_, ?_⟩
  · simp [arrestCriminal, Citizen.getArrested]
  · simp only [arrestCriminal, Citizen.getArrested, Citizen.updateSocialCredit]
  · intro cr hcr hperp
    simp only [resolveCrimesFor] at hcr
    obtain ⟨y, _, hy⟩ := List.mem_map.mp hcr
    by_cases hyp : y.perpetrator = criminal.id
    · rw [if_pos hyp] at hy
      rw [← hy]
    · rw [if_neg hyp] at hy
      rw [← hy] at hperp
      exact absurd hperp hyp
  · intro s x hx hdet
    simp only [releaseDetainedSweep] at hx
    obtain ⟨y, _, hy⟩ := List.mem_map.mp hx
    by_cases hcond : (y.isDetained && s.tickCount ≥ y.detentionEndTime) = true
    · rw [if_pos hcond] at hy
      rw [← hy] at hdet
      rw [(releaseFromDetention_fields y).1] at hdet
      exact absurd hdet (by simp)
    · rw [if_neg hcond] at hy
      subst hy
      simp only [Bool.and_eq_true, decide_eq_true_eq, not_and] at hcond
      have := hcond hdet
      omega

/-- Witness for C6: contact at distance 1 arrests; credit 150 lands in
the 150-tick tier (release tick 1150); the criminal's crime is resolved. -/
theorem C6_arrest_witness :
    crimC6.isDetained = false ∧
    distSq copC6.position crimC6.position ≤ police_arrestRange * police_arrestRange ∧
    (pursueCriminal copC6 (some crimC6) 1000).1 = PursuitResult.arrested ∧
    (arrestCriminal crimC6 1000).isDetained = true ∧
    (arrestCriminal crimC6 1000).detentionEndTime = 1150 ∧
    (resolveCrimesFor [crimeC6] "crim").map (fun cr => cr.resolved) = [true] :=
  ⟨by decide, by decide,
   (C6_arrest copC6 crimC6 1000 [crimeC6] (by decide) (by decide)).1,
   by decide, by decide, by decide⟩

/-! ## C8 — a town hall is claimed by at most one government, ever -/

/-- One membership step never touches the government's building list. -/
theorem formJoinStep_buildings (govId : String) (joiners : List Citizen)
    (acc : Government × List Citizen) (i : Nat) :
    ((formJoinStep govId joiners acc i).1).governmentBuildings
      = acc.1.governmentBuildings := by
  simp only [formJoinStep]
  rcases joiners.get? i with _ | citizen
  · rfl
  · dsimp only
    by_cases h0 : i = 0
    · rw [if_pos h0]
      simp [Government.setLeader, Government.addOfficial]
    · rw [if_neg h0]
      by_cases h3 : i < 3
      · rw [if_pos h3]
        simp [Government.addOfficial]
      · rw [if_neg h3]
        simp [Government.addCitizen]

/-- The membership loop of `formGovernment` never touches the new
government's building list. -/
theorem formJoinStep_foldl_buildings (govId : String) (joiners : List Citizen) :
    ∀ (idxs : List Nat) (g : Government) (cs : List Citizen),
    ((idxs.foldl (formJoinStep govId joiners) (g, cs)).1).governmentBuildings
      = g.governmentBuildings := by
  intro idxs
  induction idxs with
  | nil => intro g cs; rfl
  | cons i rest ih =>
    intro g cs
    simp only [List.foldl_cons]
    rcases hstep : formJoinStep govId joiners (g, cs) i with ⟨g', cs'⟩
    have hb := formJoinStep_buildings govId joiners (g, cs) i
    rw [hstep] at hb
    rw [ih g' cs']
    exact hb

/-- `formGovernment` appends exactly one government, whose buildings all
sit at the qualifying town hall. -/
theorem formGovernment_appends (s : WorldState) (th : Landmark)
    (nearby : List Citizen) :
    ∃ G, (formGovernment s th nearby).governments = s.governments ++ [G] ∧
      ∀ b ∈ G.governmentBuildings, b = th := by
  simp only [formGovernment]
  refine ⟨_, rfl, ?_⟩
  intro b hb
  rw [formJoinStep_foldl_buildings] at hb
  simp only [Government.addBuilding] at hb
  by_cases hgov : th.isGovernmentBuilding = true
  · rw [if_pos hgov] at hb
    simp only [Government.make, List.nil_append] at hb
    simpa using hb
  · rw [if_neg hgov] at hb
    by_cases hroad : th.isRoad = true
    · rw [if_pos hroad] at hb
      simp only [Government.make] at hb
      simp at hb
    · rw [if_neg hroad] at hb
      simp only [Government.make] at hb
      simp at hb

/-- One body of the formation sweep preserves the at-most-one-claimant
invariant and only appends governments. -/
theorem formationAtTownHall_inv (s : WorldState) (th : Landmark)
    (hinv : ∀ x y : Int,
      ((s.governments.filter (fun g => govClaims g x y)).length ≤ 1)) :
    (∀ x y : Int,
      (((formationAtTownHall s th).governments.filter (fun g => govClaims g x y)).length ≤ 1)) ∧
    ∃ rest, (formationAtTownHall s th).governments = s.governments ++ rest := by
  simp only [formationAtTownHall]
  by_cases hclaimed : claimedByGovernment s.governments th = true
  · rw [if_pos hclaimed]
    exact ⟨hinv, ⟨[], by simp⟩⟩
  · rw [if_neg hclaimed]
    by_cases hfive : (nearbyUnaffiliated s.citizens th).length ≥ 5
    · rw [if_pos hfive]
      obtain ⟨G, hG, hGb⟩ := formGovernment_appends s th (nearbyUnaffiliated s.citizens th)
      refine ⟨?_, ⟨[G], hG⟩⟩
      intro x y
      rw [hG, List.filter_append, List.length_append]
      by_cases hclaims : govClaims G x y = true
      · have hpos : x = th.position.x ∧ y = th.position.y := by
          simp only [govClaims, List.any_eq_true] at hclaims
          obtain ⟨b, hb, hxy⟩ := hclaims
          have := hGb b hb
          subst this
          simp only [Bool.and_eq_true, decide_eq_true_eq] at hxy
          exact ⟨hxy.1.symm, hxy.2.symm⟩
        have hold : s.governments.filter (fun g => govClaims g x y) = [] := by
          rw [List.filter_eq_nil_iff]
          intro g hg
          simp only [claimedByGovernment, List.any_eq_true, not_exists] at hclaimed
          have : ¬(govClaims g th.position.x th.position.y = true) := by
            intro hcon
            exact hclaimed g ⟨hg, hcon⟩
          rw [hpos.1, hpos.2]
          simpa using this
        rw [hold]
        simp [List.filter, hclaims]
      · have : List.filter (fun g => govClaims g x y) [G] = [] := by
          simp [List.filter, hclaims]
        rw [this]
        simpa using hinv x y
    · rw [if_neg hfive]
      exact ⟨hinv, ⟨[], by simp⟩⟩

/-- C8: the government-formation sweep of `World.tick` (the only place
governments are created) preserves the invariant that every grid
position — in particular every town hall — is claimed by at most one
government, and never removes an existing claimant; so once a government
is formed at a town hall, no later tick forms a second one there. -/
theorem C8_town_hall_unique_government (s : WorldState)
    (hinv : ∀ x y : Int,
      ((s.governments.filter (fun g => govClaims g x y)).length ≤ 1)) :
    (∀ x y : Int,
      (((checkGovernmentFormation s).governments.filter (fun g => govClaims g x y)).length ≤ 1)) ∧
    ∃ rest, (checkGovernmentFormation s).governments = s.governments ++ rest := by
  simp only [checkGovernmentFormation]
  generalize s.landmarks.filter (fun l => l.ltype = LandmarkType.town_hall) = ths
  induction ths generalizing s with
  | nil => exact ⟨hinv, ⟨[], by simp⟩⟩
  | cons th rest ih =>
    simp only [List.foldl_cons]
    obtain ⟨hinv', rest1, hrest1⟩ := formationAtTownHall_inv s th hinv
    obtain ⟨hinv'', rest2, hrest2⟩ := ih (formationAtTownHall s th) hinv'
    exact ⟨hinv'', ⟨rest1 ++ rest2, by rw [hrest2, hrest1, List.append_assoc]⟩⟩

/-- Witness for C8: the sweep forms exactly one government at the town
hall, a second sweep on the resulting state forms no further one, and
the claimant count at (10,10) stays ≤ 1. -/
theorem C8_town_hall_unique_government_witness :
    ((checkGovernmentFormation sC8).governments.length = 1) ∧
    ((checkGovernmentFormation (checkGovernmentFormation sC8)).governments.length = 1) ∧
    (((checkGovernmentFormation sC8).governments.filter
        (fun g => govClaims g 10 10)).length ≤ 1) :=
  ⟨by decide, by decide,
   (C8_town_hall_unique_government sC8 (fun x y => by simp [sC8])).1 10 10⟩

/-- Counterexample to C4 as stated: all six citizens are unaffiliated
and within radius 5 of the unclaimed town hall, the sweep forms exactly
one government — but the sixth nearby citizen does *not* join (its
`governmentId` stays null): `formGovernment` caps membership at
`Math.min(5, ...)`. -/
theorem C4_counterexample :
    claimedByGovernment sC4.governments thC4 = false ∧
    (nearbyUnaffiliated sC4.citizens thC4).length = 6 ∧
    (nearbyUnaffiliated sC4.citizens thC4).map (fun c => c.id)
      = ["c1", "c2", "c3", "c4", "c5", "c6"] ∧
    (checkGovernmentFormation sC4).governments.length = 1 ∧
    ((checkGovernmentFormation sC4).citizens.filter (fun c => c.id = "c6")).map
      (fun c => c.governmentId) = [none] := by
  refine ⟨by decide, by decide, by decide, by decide, by decide⟩

/-- A list of length five is literally five elements. -/
theorem list_len5 {α : Type} (l : List α) (h : l.length = 5) :
    ∃ a b c d e, l = [a, b, c, d, e] := by
  rcases l with _ | ⟨a, _ | ⟨b, _ | ⟨c, _ | ⟨d, _ | ⟨e, rest⟩⟩⟩⟩⟩
  · simp at h
  · simp at h
  · simp at h
  · simp at h
  · simp at h
  · refine ⟨a, b, c, d, e, ?_⟩
    simp only [List.length_cons, List.length_nil] at h
    have hrest : rest = [] := List.length_eq_zero.mp (by omega)
    rw [hrest]

/-- `joinGovernment` keeps the citizen's id. -/
theorem joinGovernment_id (c : Citizen) (g : String) (r : Role) :
    (c.joinGovernment g r).id = c.id := rfl

/-- `addBuilding` only touches the building lists. -/
theorem addBuilding_fields (g : Government) (l : Landmark) :
    (g.addBuilding l).officials = g.officials ∧
    (g.addBuilding l).citizens = g.citizens ∧
    (g.addBuilding l).leader = g.leader := by
  simp only [Government.addBuilding]
  split
  · exact ⟨rfl, rfl, rfl⟩
  · split
    · exact ⟨rfl, rfl, rfl⟩
    · exact ⟨rfl, rfl, rfl⟩

theorem addCitizen_officials (g : Government) (i : String) :
    (g.addCitizen i).officials = g.officials := rfl

theorem addCitizen_citizens (g : Government) (i : String) :
    (g.addCitizen i).citizens = addId g.citizens i := rfl

theorem addCitizen_leader (g : Government) (i : String) :
    (g.addCitizen i).leader = g.leader := rfl

theorem addOfficial_officials (g : Government) (i : String) :
    (g.addOfficial i).officials = addId g.officials i := rfl

theorem addOfficial_citizens (g : Government) (i : String) :
    (g.addOfficial i).citizens = addId g.citizens i := rfl

theorem addOfficial_leader (g : Government) (i : String) :
    (g.addOfficial i).leader = g.leader := rfl

theorem setLeader_officials (g : Government) (c : Citizen) :
    (g.setLeader c).officials = addId g.officials c.id := rfl

theorem setLeader_citizens (g : Government) (c : Citizen) :
    (g.setLeader c).citizens = addId g.citizens c.id := rfl

theorem setLeader_leader (g : Government) (c : Citizen) :
    (g.setLeader c).leader = some c.id := rfl

set_option maxHeartbeats 1000000 in
/-- C4 (amended): at an unclaimed town hall with at least five nearby
unaffiliated citizens, the sweep forms exactly one new government whose
leader is the first of them, whose officials are the first and next two,
and whose citizen set is exactly the *first five* — every joining
citizen's affiliation is set accordingly and every other citizen
(including nearby ones beyond the fifth) is left untouched. -/
theorem C4_formation_amended (s : WorldState) (th : Landmark)
    (hunclaimed : claimedByGovernment s.governments th = false)
    (hfive : (nearbyUnaffiliated s.citizens th).length ≥ 5)
    (hnodup : (s.citizens.map (fun c => c.id)).Nodup) :
    ∃ G c0 c1 c2 c3 c4,
      (nearbyUnaffiliated s.citizens th).take 5 = [c0, c1, c2, c3, c4] ∧
      (formationAtTownHall s th).governments = s.governments ++ [G] ∧
      G.leader = some c0.id ∧
      G.officials = [c0.id, c1.id, c2.id] ∧
      G.citizens = [c0.id, c1.id, c2.id, c3.id, c4.id] ∧
      (formationAtTownHall s th).citizens = s.citizens.map (fun x =>
        let govId := "gov_" ++ toString (s.governments.length + 1)
        if x.id = c0.id then x.joinGovernment govId .leader
        else if x.id = c1.id then x.joinGovernment govId .official
        else if x.id = c2.id then x.joinGovernment govId .official
        else if x.id = c3.id then x.joinGovernment govId .citizen
        else if x.id = c4.id then x.joinGovernment govId .citizen
        else x) := by
  have hlen5 : ((nearbyUnaffiliated s.citizens th).take 5).length = 5 := by
    rw [List.length_take]
    omega
  obtain ⟨c0, c1, c2, c3, c4, hj⟩ := list_len5 _ hlen5
  have hsub : ([c0, c1, c2, c3, c4].map (fun c => c.id)).Nodup := by
    rw [← hj]
    refine List.Nodup.sublist ?_ hnodup
    exact List.Sublist.map _ ((List.take_sublist 5 _).trans (List.filter_sublist _))
  simp only [List.map_cons, List.map_nil, List.nodup_cons, List.mem_cons,
    List.mem_singleton, List.not_mem_nil, or_false, not_or] at hsub
  obtain ⟨⟨h01, h02, h03, h04⟩, ⟨h12, h13, h14⟩, ⟨h23, h24⟩, h34, -⟩ := hsub
  rcases hr : s.rng.next with ⟨rt, rngr⟩
  have h2 : formationAtTownHall s th
      = formGovernment s th (nearbyUnaffiliated s.citizens th) := by
    simp only [formationAtTownHall, hunclaimed, Bool.false_eq_true, if_false]
    rw [if_pos hfive]
  rw [formGovernment, hj] at h2
  simp only [List.length_cons, List.length_nil,
    show List.range 5 = [0, 1, 2, 3, 4] from rfl, List.foldl_cons, List.foldl_nil,
    formJoinStep, List.get?, hr, reduceIte,
    show ((1 : Nat) = 0) = False by decide, show ((2 : Nat) = 0) = False by decide,
    show ((3 : Nat) = 0) = False by decide, show ((4 : Nat) = 0) = False by decide,
    show ((1 : Nat) < 3) = True by decide, show ((2 : Nat) < 3) = True by decide,
    show ((3 : Nat) < 3) = False by decide, show ((4 : Nat) < 3) = False by decide,
    if_true, if_false] at h2
  refine ⟨((((((Government.make ("gov_" ++ toString (s.governments.length + 1))
      ("Government " ++ toString (s.governments.length + 1))
      ([GovernmentType.democracy, GovernmentType.monarchy, GovernmentType.council].getD
        (Int.toNat ⌊rt * 3⌋) GovernmentType.council) s.tickCount).addBuilding th).setLeader
      c0).addOfficial c1.id).addOfficial c2.id).addCitizen c3.id).addCitizen c4.id,
    c0, c1, c2, c3, c4, hj, ?_, ?_, ?_, ?_, ?_⟩
  · rw [h2]
  · rw [addCitizen_leader, addCitizen_leader, addOfficial_leader, addOfficial_leader,
      setLeader_leader]
  · rw [addCitizen_officials, addCitizen_officials, addOfficial_officials,
      addOfficial_officials, setLeader_officials, (addBuilding_fields _ th).1,
      show (Government.make ("gov_" ++ toString (s.governments.length + 1))
        ("Government " ++ toString (s.governments.length + 1))
        ([GovernmentType.democracy, GovernmentType.monarchy, GovernmentType.council].getD
          (Int.toNat ⌊rt * 3⌋) GovernmentType.council) s.tickCount).officials = [] from rfl]
    simp [addId, Ne.symm h01, Ne.symm h02, Ne.symm h12]
  · rw [addCitizen_citizens, addCitizen_citizens, addOfficial_citizens,
      addOfficial_citizens, setLeader_citizens, (addBuilding_fields _ th).2.1,
      show (Government.make ("gov_" ++ toString (s.governments.length + 1))
        ("Government " ++ toString (s.governments.length + 1))
        ([GovernmentType.democracy, GovernmentType.monarchy, GovernmentType.council].getD
          (Int.toNat ⌊rt * 3⌋) GovernmentType.council) s.tickCount).citizens = [] from rfl]
    simp [addId, Ne.symm h01, Ne.symm h02, Ne.symm h03, Ne.symm h04, Ne.symm h12,
      Ne.symm h13, Ne.symm h14, Ne.symm h23, Ne.symm h24, Ne.symm h34]
  · rw [h2]
    simp only [List.map_map]
    apply List.map_congr_left
    intro x hx
    clear h2 hj hr hfive hlen5 hnodup hunclaimed hx
    simp only [Function.comp, apply_ite (fun (c : Citizen) => c.id), joinGovernment_id,
      ite_self]
    split_ifs <;> simp_all

/-- Witness for the amended C4 at the six-citizen world: hypotheses
hold, exactly one government appears, the first five citizens get roles
leader/official/official/citizen/citizen and the sixth stays
independent. -/
theorem C4_formation_amended_witness :
    claimedByGovernment sC4.governments thC4 = false ∧
    (nearbyUnaffiliated sC4.citizens thC4).length ≥ 5 ∧
    ((sC4.citizens.map (fun c => c.id)).Nodup) ∧
    (formationAtTownHall sC4 thC4).governments.length = 1 ∧
    ((formationAtTownHall sC4 thC4).citizens.map (fun c => (c.id, c.governmentRole)))
      = [("c1", .leader), ("c2", .official), ("c3", .official),
         ("c4", .citizen), ("c5", .citizen), ("c6", .independent)] := by
  refine ⟨by decide, by decide, by decide, ?_, by decide⟩
  obtain ⟨G, c0, c1, c2, c3, c4, hjj, hg, -⟩ :=
    C4_formation_amended sC4 thC4 (by decide) (by decide) (by decide)
  rw [hg]
  simp [sC4]

/-- C2 (code bug): the completion check of `World.tick`
(`buildingTarget && !isBuilding && buildingProgress === 0`) cannot tell
a *finished* build from a *freshly planned* one — the same tick in which
the citizen merely chooses a HOME target (inventory still empty, never
in the building state, progress 0 throughout, build time 10 never
reached) already places a home landmark at the citizen's position and
wipes the plan. -/
theorem C2_planned_building_landmark :
    (sC2.citizens.map (fun c => (c.isBuilding, c.buildingProgress, c.inventory, c.buildingTarget))
      = [(false, 0, [], none)]) ∧
    ((citizensPhase sC2 2).landmarks.map (fun l => (l.ltype, l.position))
      = [(.home, ⟨4, 4⟩)]) ∧
    (citizensPhase sC2 2).totalBuildings = 1 ∧
    ((citizensPhase sC2 2).citizens.map
        (fun c => (c.isBuilding, c.buildingProgress, c.inventory, c.buildingTarget))
      = [(false, 0, [], none)]) ∧
    ((citizensPhase sC2 2).resources.map (fun r => r.collected) = [false]) ∧
    (BUILDING_RECIPES .HOME).buildTime = 10 := by
  refine ⟨by decide, by decide, by decide, by decide, by decide, by decide⟩

/-- Counterexample to C3 as stated: both parents mutually reference each
other, are within Euclidean distance 2, and the population (2) is below
100 — yet the tick creates no offspring, and neither `lastBreedTime` nor
`breedingPartner` changes: consummation additionally requires the
citizen to be in the `seeking_mate` state after its decision pass (and a
free adjacent cell). -/
theorem C3_counterexample :
    (sC3.citizens.map (fun c => (c.id, c.breedingPartner))
      = [("a1", some "b1"), ("b1", some "a1")]) ∧
    distSq ⟨3, 3⟩ ⟨3, 4⟩ ≤ BREEDING_proximityRange * BREEDING_proximityRange ∧
    sC3.citizens.length < 100 ∧
    (citizensPhase sC3 3).citizens.length = 2 ∧
    ((citizensPhase sC3 3).citizens.map (fun c => (c.lastBreedTime, c.breedingPartner))
      = [(-1000, some "b1"), (-1000, some "a1")]) := by
  refine ⟨by decide, by decide, by decide, by decide, by decide⟩

/-- `createOffspring` fails exactly when no free 8-neighbor cell
exists. -/
theorem createOffspring_none_iff (s : WorldState) (p1 p2 : Citizen) (rng : Rng) :
    (createOffspring s p1 p2 rng).1 = none ↔
      findEmptyAdjacentCell s p1.position = none := by
  simp only [createOffspring]
  rcases h : findEmptyAdjacentCell s p1.position with _ | pos
  · simp
  · simp

/-- C3 (amended): during the per-citizen loop, an offspring is created
at citizen `i`'s breeding check iff that citizen ended its update in
`seeking_mate`, the mutual partner reference holds, the two are within
Euclidean distance 2, *and* a free adjacent cell exists — occupancy
judged against the live citizens list with the updated citizen written
back (the breeder's post-move position; a cell the breeder vacated this
tick is free).  The population cap is *not* re-checked at consummation
(it only gates entering `seeking_mate`).  When the check fires, both
parents leave with `lastBreedTime` equal to the current tick and a
cleared `breedingPartner`. -/
theorem C3_breeding_amended (s : WorldState) (i : Nat) (citizen : Citizen) :
    ((breedingCheck s i citizen).citizens.length = s.citizens.length + 1 ↔
      citizen.state = .seeking_mate ∧
      ∃ pid partner, citizen.breedingPartner = some pid ∧
        (s.citizens.set i citizen).find? (fun c => c.id = pid) = some partner ∧
        citizen.isNearbyTo partner = true ∧
        partner.breedingPartner = some citizen.id ∧
        findEmptyAdjacentCell { s with citizens := s.citizens.set i citizen }
          citizen.position ≠ none) ∧
    (∀ pid partner,
      citizen.state = .seeking_mate →
      citizen.breedingPartner = some pid →
      (s.citizens.set i citizen).find? (fun c => c.id = pid) = some partner →
      citizen.isNearbyTo partner = true →
      partner.breedingPartner = some citizen.id →
      findEmptyAdjacentCell { s with citizens := s.citizens.set i citizen }
        citizen.position ≠ none →
      ∃ offspring rng',
        (breedingCheck s i citizen).citizens
          = (((s.citizens.set i citizen).map (fun c => if c.id = pid
                then (citizen.breed partner s.tickCount).2 else c)).set i
              (citizen.breed partner s.tickCount).1) ++ [offspring] ∧
        (breedingCheck s i citizen).totalBirths = s.totalBirths + 1 ∧
        (breedingCheck s i citizen).rng = rng' ∧
        (citizen.breed partner s.tickCount).1.lastBreedTime = s.tickCount ∧
        (citizen.breed partner s.tickCount).1.breedingPartner = none ∧
        (citizen.breed partner s.tickCount).2.lastBreedTime = s.tickCount ∧
        (citizen.breed partner s.tickCount).2.breedingPartner = none) := by
  constructor
  · constructor
    · intro hlen
      by_cases h1 : citizen.state = CitizenState.seeking_mate
      · rw [breedingCheck] at hlen
        dsimp only at hlen
        rw [if_pos h1] at hlen
        refine ⟨h1, ?_⟩
        rcases h2 : citizen.breedingPartner with _ | pid
        · rw [h2] at hlen
          dsimp only at hlen
          simp [List.length_set] at hlen
        · rw [h2] at hlen
          dsimp only at hlen
          rcases h3 : (s.citizens.set i citizen).find? (fun c => c.id = pid) with _ | partner
          · rw [h3] at hlen
            dsimp only at hlen
            simp [List.length_set] at hlen
          · rw [h3] at hlen
            dsimp only at hlen
            by_cases h4 : (citizen.isNearbyTo partner &&
                decide (partner.breedingPartner = some citizen.id)) = true
            · rw [if_pos h4] at hlen
              simp only [Bool.and_eq_true, decide_eq_true_eq] at h4
              rcases h6 : (createOffspring { s with citizens := s.citizens.set i citizen }
                  citizen partner s.rng).1 with _ | offspring
              · rw [h6] at hlen
                dsimp only at hlen
                simp [List.length_set] at hlen
              · refine ⟨pid, partner, rfl, h3, h4.1, h4.2, ?_⟩
                intro hcell
                have hnone := (createOffspring_none_iff
                  { s with citizens := s.citizens.set i citizen } citizen partner s.rng).mpr hcell
                rw [h6] at hnone
                simp at hnone
            · rw [if_neg h4] at hlen
              simp [List.length_set] at hlen
      · rw [breedingCheck] at hlen
        dsimp only at hlen
        rw [if_neg h1] at hlen
        simp [List.length_set] at hlen
    · rintro ⟨h1, pid, partner, h2, h3, h4, h5, h6⟩
      rw [breedingCheck]
      dsimp only
      rw [if_pos h1, h2]
      dsimp only
      rw [h3]
      dsimp only
      rw [if_pos (show (citizen.isNearbyTo partner &&
          decide (partner.breedingPartner = some citizen.id)) = true by simp [h4, h5])]
      rcases h7 : (createOffspring { s with citizens := s.citizens.set i citizen }
          citizen partner s.rng).1 with _ | offspring
      · have hnone := (createOffspring_none_iff
          { s with citizens := s.citizens.set i citizen } citizen partner s.rng).mp h7
        rw [hnone] at h6
        exact absurd rfl h6
      · dsimp only
        simp [List.length_set]
  · intro pid partner h1 h2 h3 h4 h5 h6
    rw [breedingCheck]
    dsimp only
    rw [if_pos h1, h2]
    dsimp only
    rw [h3]
    dsimp only
    rw [if_pos (show (citizen.isNearbyTo partner &&
        decide (partner.breedingPartner = some citizen.id)) = true by simp [h4, h5])]
    rcases h7 : (createOffspring { s with citizens := s.citizens.set i citizen }
        citizen partner s.rng).1 with _ | offspring
    · have hnone := (createOffspring_none_iff
        { s with citizens := s.citizens.set i citizen } citizen partner s.rng).mp h7
      rw [hnone] at h6
      exact absurd rfl h6
    · exact ⟨offspring,
        (createOffspring { s with citizens := s.citizens.set i citizen } citizen partner s.rng).2,
        rfl, rfl, rfl, rfl, rfl, rfl, rfl⟩

/-- Witness for the amended C3: in the concrete world `sC3w` the
breeding check at citizen `a1` (index 0) creates exactly one
offspring. -/
theorem C3_breeding_amended_witness :
    (breedingCheck sC3w 0 cC3w).citizens.length = sC3w.citizens.length + 1 := by
  exact (C3_breeding_amended sC3w 0 cC3w).1.mpr
    ⟨rfl, "b1", pC3w, rfl, rfl, by decide, rfl, by decide⟩

theorem boundsAmended_congr {a b : Citizen} (h : numericsOf a = numericsOf b)
    (hb : b.boundsAmended) : a.boundsAmended := by
  simp only [numericsOf, Prod.mk.injEq] at h
  obtain ⟨h1, h2, h3, h4, h5⟩ := h
  simp only [Citizen.boundsAmended, h1, h2, h3, h4, h5]
  exact hb

theorem numericsOf_setRandomTargetLoop (g : Grid) (n : Nat) (c : Citizen) (rng : Rng) :
    numericsOf (setRandomTargetLoop g n c rng).1 = numericsOf c := by
  induction n generalizing c rng with
  | zero => rfl
  | succ n ih =>
    unfold setRandomTargetLoop
    dsimp only
    split
    · rfl
    · exact ih c _

theorem numericsOf_findNearestResource (c : Citizen) (rs : List Resource) :
    numericsOf (c.findNearestResource rs) = numericsOf c := by
  unfold Citizen.findNearestResource
  dsimp only
  split <;> rfl

theorem numericsOf_findNearestLandmark (c : Citizen) (ls : List Landmark)
    (lt : LandmarkType) : numericsOf (c.findNearestLandmark ls lt) = numericsOf c := by
  unfold Citizen.findNearestLandmark
  dsimp only
  split <;> rfl

theorem numericsOf_findNearestCitizen (c : Citizen) (cs : List Citizen) :
    numericsOf (c.findNearestCitizen cs) = numericsOf c := by
  unfold Citizen.findNearestCitizen
  dsimp only
  split <;> rfl

theorem numericsOf_findNearestMate (c : Citizen) (cs : List Citizen) (t : Int) :
    numericsOf (c.findNearestMate cs t) = numericsOf c := by
  unfold Citizen.findNearestMate
  dsimp only
  split <;> rfl

theorem numericsOf_startBuilding (c : Citizen) :
    numericsOf c.startBuilding = numericsOf c := by
  unfold Citizen.startBuilding
  dsimp only
  split
  · rfl
  · split <;> rfl

theorem numericsOf_findResourcesForBuilding (c : Citizen) (rs : List Resource) :
    numericsOf (c.findResourcesForBuilding rs) = numericsOf c := by
  unfold Citizen.findResourcesForBuilding
  dsimp only
  split
  · rfl
  · split
    · exact numericsOf_startBuilding c
    · split <;> rfl

theorem numericsOf_planBuilding (c : Citizen) (rng : Rng) :
    numericsOf (c.planBuilding rng).1 = numericsOf c := by
  unfold Citizen.planBuilding
  dsimp only
  split
  · rfl
  · split <;> first | rfl | (split <;> rfl)

theorem numericsOf_decideAction (c : Citizen) (g : Grid) (cs : List Citizen)
    (rs : List Resource) (ls : List Landmark) (t : Int) (rng : Rng) :
    numericsOf (c.decideAction g cs rs ls t rng).1 = numericsOf c := by
  unfold Citizen.decideAction
  dsimp only
  split
  · exact numericsOf_findNearestLandmark _ _ _
  split
  · exact numericsOf_findNearestResource _ _
  rcases h1 : c.shouldBreed t cs rng with ⟨breedp, rng1⟩
  dsimp only
  split
  · exact numericsOf_findNearestMate _ _ _
  rcases h2 : c.shouldBuild ls rng1 with ⟨buildp, rng2⟩
  dsimp only
  split
  · rcases h3 : ({ c with state := CitizenState.seeking_resource } : Citizen).planBuilding rng2
      with ⟨c1, rng3⟩
    dsimp only
    have h4 : numericsOf c1 = numericsOf c := by
      have h5 := numericsOf_planBuilding { c with state := CitizenState.seeking_resource } rng2
      rw [h3] at h5
      exact h5
    exact (numericsOf_findResourcesForBuilding c1 rs).trans h4
  split
  · exact numericsOf_findNearestCitizen _ _
  split
  · exact numericsOf_setRandomTargetLoop _ _ _ _
  · rcases h6 : rng2.next with ⟨r, rng3⟩
    dsimp only
    split
    · exact numericsOf_setRandomTargetLoop _ _ _ _
    · rfl

theorem boundsAmended_onReachTarget {c : Citizen} (h : c.boundsAmended) :
    c.onReachTarget.boundsAmended := by
  obtain ⟨h1, h2, h3, h4, h5, h6, h7, h8, h9, h10, h11, h12, h13⟩ := h
  unfold Citizen.onReachTarget
  dsimp only
  split
  · exact ⟨h1, h2, le_min (by norm_num) (by linarith), min_le_left _ _,
      h5, h6, h7, h8, h9, h10, h11, h12, h13⟩
  split
  · exact ⟨le_min (by norm_num) (by linarith), min_le_left _ _, h3, h4,
      h5, h6, h7, h8, h9, h10, h11, h12, h13⟩
  split
  · exact ⟨h1, h2, h3, h4, le_min (by norm_num) (by linarith), min_le_left _ _,
      h7, h8, h9, h10, h11, h12, h13⟩
  · exact ⟨h1, h2, h3, h4, h5, h6, h7, h8, h9, h10, h11, h12, h13⟩

theorem boundsAmended_move {c : Citizen} (g : Grid) (ls : List Landmark) (rng : Rng)
    (h : c.boundsAmended) : ((c.move g ls rng).1).boundsAmended := by
  unfold Citizen.move
  dsimp only
  split
  · exact h
  · repeat' split
    all_goals first
      | exact h
      | exact boundsAmended_onReachTarget h

theorem boundsAmended_updateBuilding {c : Citizen} (h : c.boundsAmended) :
    c.updateBuilding.boundsAmended := by
  unfold Citizen.updateBuilding
  dsimp only
  split
  · exact h
  · split
    · exact h
    · split
      · obtain ⟨h1, h2, h3, h4, h5, h6, h7, h8, h9, h10, h11, h12, h13⟩ := h
        exact ⟨h1, h2, h3, h4, h5, h6, min_le_left _ _, h8, h9, h10, h11, h12, h13⟩
      · exact h

theorem boundsAmended_decay {c : Citizen} (a : Nat) {x y z d : ℚ}
    (hx : 0 ≤ x) (hy : 0 ≤ y) (hz : 0 ≤ z) (hd : 0 ≤ d) (h : c.boundsAmended) :
    ({ c with age := a
              needs := { hunger := max 0 (c.needs.hunger - x)
                         energy := max 0 (c.needs.energy - y)
                         social := max 0 (c.needs.social - z) }
              energy := max 0 (c.energy - d) } : Citizen).boundsAmended := by
  obtain ⟨h1, h2, h3, h4, h5, h6, h7, h8, h9, h10, h11, h12, h13⟩ := h
  exact ⟨le_max_left _ _, max_le (by norm_num) (by linarith),
    le_max_left _ _, max_le (by norm_num) (by linarith),
    le_max_left _ _, max_le (by norm_num) (by linarith),
    max_le (by norm_num) (by linarith),
    h8, h9, h10, h11, h12, h13⟩

theorem boundsAmended_moveTail {p : Citizen × Rng} (g : Grid) (ls : List Landmark) (thr : ℚ)
    (h : p.1.boundsAmended) :
    ((if p.1.moveCounter + 1 ≥ thr then
        ({ p.1 with moveCounter := 0 } : Citizen).move g ls p.2
      else ({ p.1 with moveCounter := p.1.moveCounter + 1 }, p.2)).1).boundsAmended := by
  split
  · exact boundsAmended_move _ _ _ h
  · exact h

set_option maxHeartbeats 1000000 in
theorem boundsAmended_update {c : Citizen} (g : Grid) (cs : List Citizen)
    (rs : List Resource) (ls : List Landmark) (t : Int) (rng : Rng)
    (h : c.boundsAmended) : ((c.update g cs rs ls t rng).1).boundsAmended := by
  unfold Citizen.update
  dsimp only
  by_cases hroad : ({ c with age := c.age + 1 } : Citizen).isOnRoad ls = true
  · simp only [hroad, reduceIte]
    split
    · exact boundsAmended_updateBuilding (boundsAmended_decay (c.age + 1) (by norm_num)
        (by norm_num) (by norm_num) (by norm_num) h)
    · exact boundsAmended_moveTail g ls _
        (boundsAmended_congr (numericsOf_decideAction _ g cs rs ls t rng)
          (boundsAmended_decay (c := c) (x := 1/10) (y := 1/20) (z := 2/25) (d := 3/200)
            (c.age + 1) (by norm_num) (by norm_num) (by norm_num) (by norm_num) h))
  · simp only [Bool.not_eq_true] at hroad
    simp only [hroad, reduceIte]
    split
    · exact boundsAmended_updateBuilding (boundsAmended_decay (c.age + 1) (by norm_num)
        (by norm_num) (by norm_num) (by norm_num) h)
    · exact boundsAmended_moveTail g ls _
        (boundsAmended_congr (numericsOf_decideAction _ g cs rs ls t rng)
          (boundsAmended_decay (c := c) (x := 1/10) (y := 1/20) (z := 2/25) (d := 3/100)
            (c.age + 1) (by norm_num) (by norm_num) (by norm_num) (by norm_num) h))

theorem numericsOf_collectResource (c : Citizen) (r : Resource) :
    numericsOf (c.collectResource r).1 = numericsOf c := by
  unfold Citizen.collectResource
  split <;> rfl

theorem numericsOf_collectStep (c : Citizen) (rs : List Resource) :
    numericsOf (collectStep c rs).1 = numericsOf c := by
  induction rs generalizing c with
  | nil => rfl
  | cons r rest ih =>
    unfold collectStep
    dsimp only
    split
    · rcases h1 : c.collectResource r with ⟨c1, r1⟩
      dsimp only
      rcases h2 : collectStep c1 rest with ⟨c2, rest2⟩
      dsimp only
      have h3 := congrArg (fun p : Citizen × Resource => numericsOf p.1) h1
      simp only [numericsOf_collectResource] at h3
      have h4 := congrArg (fun p : Citizen × List Resource => numericsOf p.1) h2
      simp only [ih] at h4
      exact h4.symm.trans h3.symm
    · rcases h2 : collectStep c rest with ⟨c2, rest2⟩
      dsimp only
      have h4 := congrArg (fun p : Citizen × List Resource => numericsOf p.1) h2
      simp only [ih] at h4
      exact h4.symm

theorem buildingCheck_fst_citizens (s : WorldState) (c : Citizen) :
    ((buildingCheck s c).1).citizens = s.citizens := by
  unfold buildingCheck
  split
  · rfl
  · split
    · split <;> rfl
    · rfl

theorem numericsOf_buildingCheck (s : WorldState) (c : Citizen) :
    numericsOf (buildingCheck s c).2 = numericsOf c := by
  unfold buildingCheck
  split
  · rfl
  · split
    · split <;> rfl
    · rfl

theorem boundsAmended_breed {c p : Citizen} (t : Int)
    (hc : c.boundsAmended) (hp : p.boundsAmended) :
    ((c.breed p t).1).boundsAmended ∧ ((c.breed p t).2).boundsAmended := by
  obtain ⟨h1, h2, h3, h4, h5, h6, h7, h8, h9, h10, h11, h12, h13⟩ := hc
  obtain ⟨g1, g2, g3, g4, g5, g6, g7, g8, g9, g10, g11, g12, g13⟩ := hp
  unfold Citizen.breed
  exact ⟨⟨le_max_left _ _, max_le (by norm_num) (by linarith), h3, h4, h5, h6,
      show c.energy - 20 ≤ 100 by linarith, h8, h9, h10, h11, h12, h13⟩,
    ⟨le_max_left _ _, max_le (by norm_num) (by linarith), g3, g4, g5, g6,
      show p.energy - 20 ≤ 100 by linarith, g8, g9, g10, g11, g12, g13⟩⟩

theorem boundsAmended_createOffspring {s : WorldState} {p1 p2 : Citizen} {rng : Rng}
    {o : Citizen} (h : (createOffspring s p1 p2 rng).1 = some o) :
    o.boundsAmended := by
  unfold createOffspring at h
  rcases h2 : findEmptyAdjacentCell s p1.position with _ | pos
  · rw [h2] at h
    simp at h
  · rw [h2] at h
    dsimp only at h
    rcases h3 : rng.next with ⟨re, rng1⟩
    rw [h3] at h
    dsimp only at h
    rcases h4 : rng1.next with ⟨rc, rng2⟩
    rw [h4] at h
    dsimp only at h
    rcases h5 : rng2.next with ⟨rid, rng3⟩
    rw [h5] at h
    dsimp only at h
    injection h with h6
    subst h6
    refine ⟨?_, ?_, ?_, ?_, ?_, ?_, ?_, ?_, ?_, ?_, ?_, ?_, ?_⟩ <;>
      simp only [Citizen.make] <;> norm_num

theorem boundsAmended_breedingCheck {s : WorldState} {i : Nat} {citizen : Citizen}
    (hs : ∀ c ∈ s.citizens, c.boundsAmended) (hc : citizen.boundsAmended) :
    ∀ c ∈ (breedingCheck s i citizen).citizens, c.boundsAmended := by
  have hset : ∀ c ∈ s.citizens.set i citizen, c.boundsAmended := by
    intro c hmem
    rcases List.mem_or_eq_of_mem_set hmem with h | rfl
    · exact hs c h
    · exact hc
  unfold breedingCheck
  dsimp only
  split
  · split
    · exact hset
    · rename_i pid
      split
      · exact hset
      · rename_i partner hfind
        have hpartner : partner.boundsAmended :=
          hset partner (List.mem_of_find?_eq_some hfind)
        split
        · rcases heqPair : createOffspring { s with citizens := s.citizens.set i citizen }
            citizen partner s.rng with ⟨offspringOpt, rng2⟩
          dsimp only
          rcases offspringOpt with _ | off
          · exact hset
          · rcases heqBreed : citizen.breed partner s.tickCount with ⟨cpr, ppr⟩
            dsimp only
            have hcp := boundsAmended_breed s.tickCount hc hpartner
            rw [heqBreed] at hcp
            have hoff : (createOffspring { s with citizens := s.citizens.set i citizen }
                citizen partner s.rng).1 = some off := by
              rw [heqPair]
            intro c hmem
            rcases List.mem_append.mp hmem with hmem1 | hmem2
            · rcases List.mem_or_eq_of_mem_set hmem1 with hmem3 | rfl
              · rcases List.mem_map.mp hmem3 with ⟨x, hx, rfl⟩
                split
                · exact hcp.2
                · exact hset x hx
              · exact hcp.1
            · rw [List.mem_singleton] at hmem2
              subst hmem2
              exact boundsAmended_createOffspring hoff
        · exact hset
  · exact hset

set_option maxHeartbeats 1000000 in
theorem boundsAmended_citizenStep (s : WorldState) (i : Nat)
    (hs : ∀ c ∈ s.citizens, c.boundsAmended) :
    ∀ c ∈ (citizenStep s i).citizens, c.boundsAmended := by
  unfold citizenStep
  dsimp only
  split
  · exact hs
  · rename_i citizen hget
    have hcit : citizen.boundsAmended := hs citizen (List.get?_mem hget)
    by_cases hvalid : (!s.grid.isValidPosition citizen.position) = true
    · rw [if_pos hvalid]
      rcases hge : (getRandomEmptyPosition s s.rng).1 with _ | safePos
      · exact hs
      · exact boundsAmended_breedingCheck
          (by rw [buildingCheck_fst_citizens]; exact hs)
          (boundsAmended_congr (numericsOf_buildingCheck _ _)
            (boundsAmended_congr (numericsOf_collectStep _ _)
              (boundsAmended_update _ _ _ _ _ _ hcit)))
    · rw [if_neg hvalid]
      exact boundsAmended_breedingCheck
        (by rw [buildingCheck_fst_citizens]; exact hs)
        (boundsAmended_congr (numericsOf_buildingCheck _ _)
          (boundsAmended_congr (numericsOf_collectStep _ _)
            (boundsAmended_update _ _ _ _ _ _ hcit)))

theorem boundsAmended_citizensLoop (fuel : Nat) (s : WorldState) (i : Nat)
    (hs : ∀ c ∈ s.citizens, c.boundsAmended) :
    ∀ c ∈ (citizensLoop fuel s i).citizens, c.boundsAmended := by
  induction fuel generalizing s i with
  | zero => exact hs
  | succ n ih =>
    unfold citizensLoop
    split
    · exact ih (citizenStep s i) (i + 1) (boundsAmended_citizenStep s i hs)
    · exact hs

/-- Counterexample to C1 as stated: in `sC1` every citizen starts with
all numeric fields in range (energy included), yet after one pass of the
per-citizen loop citizen `b1` — a stale mutual breeding partner whose
stamina has decayed to 10 — is dragged through `Citizen.breed` by `a1`
and ends the tick with energy `-1003/100 < 0`: `breed` subtracts 20
without the `Math.max(0, ...)` clamp. -/
theorem C1_counterexample :
    (sC1.citizens.all fun c => decide (0 ≤ c.energy) && decide c.boundsAmended) = true ∧
    ((citizensPhase sC1 5).citizens.map fun c => (c.id, c.energy)).head? =
      some ("b1", -1003/100) := by
  exact ⟨by decide, by decide⟩

/-- C1 (amended): through the per-citizen loop of `World.tick`, every
citizen keeps `needs.hunger`, `needs.energy`, `needs.social`,
`satisfaction` and `loyaltyToGov` in [0,100], `socialCredit` in
[0,1000], and stamina `energy` *at most* 100 — but energy's lower bound
0 is dropped: `Citizen.breed` subtracts 20 unclamped, so energy can go
negative (see the counterexample). -/
theorem C1_bounds_amended (s : WorldState) (fuel : Nat)
    (h : ∀ c ∈ s.citizens, c.boundsAmended) :
    ∀ c ∈ (citizensPhase s fuel).citizens, c.boundsAmended :=
  boundsAmended_citizensLoop fuel s 0 h

/-- Witness: the amended bounds hold for every citizen of the concrete
world `sC1` after the loop (including `b1`, whose energy is negative but
still at most 100). -/
theorem C1_bounds_amended_witness :
    ((citizensPhase sC1 5).citizens.all fun c => decide c.boundsAmended) = true := by
  rw [List.all_eq_true]
  intro c hc
  exact decide_eq_true (C1_bounds_amended sC1 5 (by decide) c hc)

end EmojiWorld
